import Mathlib

/-!
Verification development for the furnace-flow-controller repository.

The development shallowly embeds the three source files:

* `mks647b.py` — MKS 647B mass-flow-controller driver: bounded-retry query
  loop with error-code classification, unit scaling of setpoints, and
  argument-checked operations (modelled as trace-producing functions so that
  "what was transmitted before the call failed" is observable).
* `up150.py` — Yokogawa UP150 furnace driver: segment setpoint/duration
  registers (modelled as a memory table updated by write actions).
* `main.py` — the process controller: stage bookkeeping, the per-snapshot
  handler `handle_furnace_data`, `start_furnace` / `stop_furnace`, recipe
  loading, and the MFC commands issued by the constructor.

Python's `round` is round-half-to-even; it is modelled exactly on `ℚ` by
`pyRound`.  Python's floor division `(segment - 1) // 2` has the positive
literal divisor 2, for which floor division agrees with Lean's `Int`
division `/` (Euclidean division, used throughout).
-/

/-- Python `round(q)`: nearest integer, ties to even. -/
def pyRound (q : ℚ) : ℤ :=
  if q - ⌊q⌋ < 1/2 then ⌊q⌋
  else if 1/2 < q - ⌊q⌋ then ⌊q⌋ + 1
  else if Even ⌊q⌋ then ⌊q⌋ else ⌊q⌋ + 1

/-- Python `round(q, 3)`: nearest multiple of 1/1000, ties to even. -/
def pyRound3 (q : ℚ) : ℚ :=
  (pyRound (q * 1000) : ℚ) / 1000

namespace MKS647B

/-- Error classification raised by `iterate_query` when the retry budget is
exhausted (from the `elif` chain in `mks647b.py`).  `indexAccessError`
stands for the `IndexError` Python raises when the indexed character does
not exist. -/
inductive MKSError where
  | channelError
  | unknownCommand
  | syntaxTrouble
  | invalidExpression
  | invalidValue
  | autozeroError
  | unknownError
  | indexAccessError
  deriving DecidableEq, Repr

/-- Decode the second character (`val[1]`) of the last reply into an error
classification, as in the `elif` chain of `MKS647B.iterate_query`. -/
def decode_error (val : List Char) : MKSError :=
  match val.get? 1 with
  | none => MKSError.indexAccessError
  | some c =>
    if c = '0' then MKSError.channelError
    else if c = '1' then MKSError.unknownCommand
    else if c = '2' then MKSError.syntaxTrouble
    else if c = '3' then MKSError.invalidExpression
    else if c = '4' then MKSError.invalidValue
    else if c = '5' then MKSError.autozeroError
    else MKSError.unknownError

/-- One pass of the retry loop of `MKS647B.iterate_query`: the first
parameter is the list of replies still available, the second the last
reply seen (`val`, initially the empty string).  A reply whose first
character is not `'E'` is returned; when the replies are exhausted the last
reply is decoded into an error. -/
def iterate_query_loop : List (List Char) → List Char → Except MKSError (List Char)
  | [], last => Except.error (decode_error last)
  | v :: rest, _ =>
    match v.head? with
    | none => Except.error MKSError.indexAccessError
    | some c => if c = 'E' then iterate_query_loop rest v else Except.ok v

/-- `MAX_COUNT` from `MKS647B.iterate_query`. -/
def MAX_COUNT : ℕ := 5

/-- `MKS647B.iterate_query`, with the instrument's successive replies given
as a function from attempt number to reply text. -/
def iterate_query (replies : ℕ → List Char) : Except MKSError (List Char) :=
  iterate_query_loop ((List.range MAX_COUNT).map replies) []

/-- Scaling used by `MKS647B.set_flow_setpoint` (and `set_gas_setpoint`):
the device value transmitted for an engineering setpoint. -/
def flow_device_value (range_factor correction_factor sp : ℚ) : ℤ :=
  pyRound (sp / range_factor / correction_factor * 1000)

/-- Inverse transform used by `MKS647B.get_flow_setpoint` (and
`get_gas_setpoint`): the engineering value recovered from a device value. -/
def flow_engineering_value (range_factor correction_factor : ℚ) (x : ℤ) : ℚ :=
  pyRound3 ((x : ℚ) * correction_factor / 1000) * range_factor

/-- `RANGE_DICT` from `mks647b.py`: the fixed (value, unit) → code table. -/
def RANGE_PAIRS : List ((ℕ × String) × ℕ) :=
  [((1, "SCCM"), 0), ((2, "SCCM"), 1), ((5, "SCCM"), 2), ((10, "SCCM"), 3),
   ((20, "SCCM"), 4), ((50, "SCCM"), 5), ((100, "SCCM"), 6), ((200, "SCCM"), 7),
   ((500, "SCCM"), 8), ((1, "SLM"), 9), ((2, "SLM"), 10), ((5, "SLM"), 11),
   ((10, "SLM"), 12), ((20, "SLM"), 13), ((50, "SLM"), 14), ((100, "SLM"), 15),
   ((200, "SLM"), 16), ((400, "SLM"), 17), ((500, "SLM"), 18), ((1, "SCMM"), 19),
   ((1, "SCFH"), 20), ((2, "SCFH"), 21), ((5, "SCFH"), 22), ((10, "SCFH"), 23),
   ((20, "SCFH"), 24), ((50, "SCFH"), 25), ((100, "SCFH"), 26), ((200, "SCFH"), 27),
   ((500, "SCFH"), 28), ((1, "SCFM"), 29), ((2, "SCFM"), 30), ((5, "SCFM"), 31),
   ((10, "SCFM"), 32), ((20, "SCFM"), 33), ((50, "SCFM"), 34), ((100, "SCFM"), 35),
   ((200, "SCFM"), 36), ((500, "SCFM"), 37), ((30, "SLM"), 38), ((300, "SLM"), 39)]

/-- Lookup in `RANGE_DICT`; `none` models a Python `KeyError`. -/
def RANGE_DICT (v : ℕ) (u : String) : Option ℕ :=
  (RANGE_PAIRS.find? (fun p => p.1.1 == v && p.1.2 == u)).map (fun p => p.2)

/-- Lookup in `REVERSE_RANGE_DICT` (the inverted table built in
`MKS647B.__init__`); `none` models a Python `KeyError`. -/
def REVERSE_RANGE_DICT (code : ℕ) : Option (ℕ × String) :=
  (RANGE_PAIRS.find? (fun p => p.2 == code)).map (fun p => p.1)

/-- A command or query transmitted over the serial line (the argument of
`iterate_query` in the driver methods, with the ASCII formatting
abstracted into constructors). -/
inductive MFCCmd where
  | onCmd (ch : ℤ)
  | offCmd (ch : ℤ)
  | gmCmd (g : ℤ)
  | gpCmd (ch gs x : ℤ)
  | gpRead (ch gs : ℤ)
  | fsCmd (ch x : ℤ)
  | fsRead (ch : ℤ)
  | flRead (ch : ℤ)
  | raCmd (ch : ℤ) (code : ℕ)
  | raRead (ch : ℤ)
  | gcRead (ch : ℤ)
  deriving DecidableEq, Repr

/-- Replies the instrument would give to the read queries a driver call
issues internally (`get_range`, `get_gas_correction_factor`). -/
structure MFCEnv where
  rangeCode : ℕ
  corr : ℚ
  deriving DecidableEq, Repr

/-- `MKS647B.get_range`: assert on the channel, then one `RA # R` query. -/
def mks_get_range (env : MFCEnv) (ch : ℤ) : Except String ℕ × List MFCCmd :=
  if 1 ≤ ch ∧ ch ≤ 8 then (Except.ok env.rangeCode, [MFCCmd.raRead ch])
  else (Except.error "assert: channel", [])

/-- `MKS647B.get_gas_correction_factor`: assert on the channel, then one
`GC # R` query. -/
def mks_get_gas_correction_factor (env : MFCEnv) (ch : ℤ) :
    Except String ℚ × List MFCCmd :=
  if 1 ≤ ch ∧ ch ≤ 8 then (Except.ok env.corr, [MFCCmd.gcRead ch])
  else (Except.error "assert: channel", [])

/-- `MKS647B.open_valve`: assert `0 ≤ channel ≤ 8`, then `ON #`. -/
def mks_open_valve (ch : ℤ) : Except String Unit × List MFCCmd :=
  if 0 ≤ ch ∧ ch ≤ 8 then (Except.ok (), [MFCCmd.onCmd ch])
  else (Except.error "assert: channel", [])

/-- `MKS647B.close_valve`: assert `0 ≤ channel ≤ 8`, then `OF #`. -/
def mks_close_valve (ch : ℤ) : Except String Unit × List MFCCmd :=
  if 0 ≤ ch ∧ ch ≤ 8 then (Except.ok (), [MFCCmd.offCmd ch])
  else (Except.error "assert: channel", [])

/-- `MKS647B.set_gas_menu`: assert `0 ≤ gas_set ≤ 5`, then `GM #`. -/
def mks_set_gas_menu (g : ℤ) : Except String Unit × List MFCCmd :=
  if 0 ≤ g ∧ g ≤ 5 then (Except.ok (), [MFCCmd.gmCmd g])
  else (Except.error "assert: gas_set", [])

/-- `MKS647B.set_range`: assert the channel, look up the range code,
assert it, then `RA # code`. -/
def mks_set_range (ch : ℤ) (v : ℕ) (u : String) : Except String Unit × List MFCCmd :=
  if 1 ≤ ch ∧ ch ≤ 8 then
    match RANGE_DICT v u with
    | none => (Except.error "KeyError", [])
    | some code =>
      if code ≤ 39 then (Except.ok (), [MFCCmd.raCmd ch code])
      else (Except.error "assert: range", [])
  else (Except.error "assert: channel", [])

/-- `MKS647B.set_flow_setpoint`, line for line: first `get_range` (a
transmitted query) and the `REVERSE_RANGE_DICT` lookup, then
`get_gas_correction_factor` (a second transmitted query) and the scaled
value, and only then the channel and value asserts, and finally the
`FS # x` command.  The trace records every transmission in order. -/
def mks_set_flow_setpoint (env : MFCEnv) (ch : ℤ) (sp : ℚ) :
    Except String Unit × List MFCCmd :=
  match mks_get_range env ch with
  | (Except.error e, tr) => (Except.error e, tr)
  | (Except.ok code, tr1) =>
    match REVERSE_RANGE_DICT code with
    | none => (Except.error "KeyError", tr1)
    | some rg =>
      match mks_get_gas_correction_factor env ch with
      | (Except.error e, tr2) => (Except.error e, tr1 ++ tr2)
      | (Except.ok cf, tr2) =>
        let x := pyRound (sp / (rg.1 : ℚ) / cf * 1000)
        if 1 ≤ ch ∧ ch ≤ 8 then
          if 0 ≤ x ∧ x ≤ 1100 then
            (Except.ok (), tr1 ++ tr2 ++ [MFCCmd.fsCmd ch x])
          else (Except.error "assert: setpoint", tr1 ++ tr2)
        else (Except.error "assert: channel", tr1 ++ tr2)

/-- `MKS647B.set_gas_setpoint`, line for line: `get_range` query and
lookup, `get_gas_correction_factor` query and scaling, then the channel,
gas-set and value asserts, and finally the `GP # # x` command. -/
def mks_set_gas_setpoint (env : MFCEnv) (ch gs : ℤ) (sp : ℚ) :
    Except String Unit × List MFCCmd :=
  match mks_get_range env ch with
  | (Except.error e, tr) => (Except.error e, tr)
  | (Except.ok code, tr1) =>
    match REVERSE_RANGE_DICT code with
    | none => (Except.error "KeyError", tr1)
    | some rg =>
      match mks_get_gas_correction_factor env ch with
      | (Except.error e, tr2) => (Except.error e, tr1 ++ tr2)
      | (Except.ok cf, tr2) =>
        let x := pyRound (sp / (rg.1 : ℚ) / cf * 1000)
        if 1 ≤ ch ∧ ch ≤ 8 then
          if 1 ≤ gs ∧ gs ≤ 5 then
            if 0 ≤ x ∧ x ≤ 1100 then
              (Except.ok (), tr1 ++ tr2 ++ [MFCCmd.gpCmd ch gs x])
            else (Except.error "assert: setpoint", tr1 ++ tr2)
          else (Except.error "assert: gas_set", tr1 ++ tr2)
        else (Except.error "assert: channel", tr1 ++ tr2)

end MKS647B

namespace MainWindow

/-- `POST_ANNEAL_FLOW_RATE` from `main.py`. -/
def POST_ANNEAL_FLOW_RATE : ℚ := 6

/-- The data of one `StageWidget`: temperature, ramp and hold minutes,
flow setpoint, and the selected flow range (numeric value and unit). -/
structure Stage where
  temperature : ℕ
  ramp_time : ℕ
  hold_time : ℕ
  flow_rate : ℚ
  rangeValue : ℕ
  rangeUnit : String
  deriving DecidableEq, Repr

/-- A freshly constructed `StageWidget`: spin boxes at 0, range combo box
defaulted to "500 SCCM". -/
def defaultStage : Stage :=
  { temperature := 0, ramp_time := 0, hold_time := 0, flow_rate := 0,
    rangeValue := 500, rangeUnit := "SCCM" }

/-- The controller-owned mutable state of `MainWindow` that the claims
concern: the stage list, `current_stage_index`, `heating_in_progress`,
`post_anneal_flow`. -/
structure CtrlState where
  stages : List Stage
  current_stage_index : ℤ
  heating_in_progress : Bool
  post_anneal_flow : Bool
  deriving DecidableEq, Repr

/-- One poll result emitted by `FurnaceWorker.dataReady`. -/
structure Snapshot where
  segment : ℕ
  time_left : ℕ
  temp : ℤ
  flow : ℚ
  range_code : ℕ
  setpoint : ℤ
  deriving DecidableEq, Repr

/-- Effectful commands the controller sends to the two instruments. -/
inductive Action where
  | furnaceSetSp (seg : ℕ) (temp : ℕ)
  | furnaceSetTm (seg : ℕ) (len : ℕ)
  | furnaceRun
  | furnaceReset
  | furnaceSetStartSetpoint (temp : ℕ)
  | mfcSetRange (ch : ℕ) (rv : ℕ) (ru : String)
  | mfcSetFlowSetpoint (ch : ℕ) (sp : ℚ)
  | mfcSetGasMenu (g : ℕ)
  | mfcOpenValve (ch : ℕ)
  | mfcCloseValve (ch : ℕ)
  deriving DecidableEq, Repr

/-- `stage_index = (segment - 1) // 2` from `handle_furnace_data`
(Python floor division; the divisor 2 is positive, so `Int` division
agrees with it). -/
def stage_index_of (segment : ℕ) : ℤ :=
  ((segment : ℤ) - 1) / 2

/-- `stage = 1 + (segment - 1) // 2` from `handle_furnace_data`. -/
def stage_of (segment : ℕ) : ℤ :=
  1 + stage_index_of segment

/-- The furnace mode derived per snapshot in `handle_furnace_data`:
`Resting` when `segment == 0`, `Ramping` when the segment is odd,
`Holding` otherwise. -/
inductive Mode where
  | Resting
  | Ramping
  | Holding
  deriving DecidableEq, Repr

/-- The `if/elif/else` mode derivation of `handle_furnace_data`. -/
def derive_mode (segment : ℕ) : Mode :=
  if segment = 0 then Mode.Resting
  else if segment % 2 = 1 then Mode.Ramping
  else Mode.Holding

/-- The displayed stage time-left in `handle_furnace_data`: in a ramp
segment the configured duration of the following hold segment (read from
the device table `tm_length`) is added. -/
def displayed_time_left (tm_length : ℕ → ℕ) (segment time_left : ℕ) : ℕ :=
  if segment ≠ 0 ∧ segment % 2 = 1 then time_left + tm_length (segment + 1)
  else time_left

/-- `MainWindow.stop_furnace`: reset the furnace, clear
`current_stage_index` and `heating_in_progress`, set the MFC to the fixed
safe range and purge flow, and raise `post_anneal_flow`. -/
def stop_furnace (s : CtrlState) : CtrlState × List Action :=
  ({ s with current_stage_index := -1, heating_in_progress := false,
            post_anneal_flow := true },
   [Action.furnaceReset, Action.mfcSetRange 1 500 "SCCM",
    Action.mfcSetFlowSetpoint 1 POST_ANNEAL_FLOW_RATE])

/-- The MFC stage-change block of `handle_furnace_data` (under
`if self.current_stage_index != stage_index:` and the inner bounds
check): push the new stage's range and flow setpoint and record the new
index.  The bounds guard makes the `getD` default unreachable, matching
Python's checked indexing. -/
def mfc_stage_update (s : CtrlState) (snap : Snapshot) : CtrlState × List Action :=
  let stage_index := stage_index_of snap.segment
  if s.current_stage_index ≠ stage_index then
    if 0 ≤ stage_index ∧ stage_index < (s.stages.length : ℤ) then
      let w := s.stages.getD stage_index.toNat defaultStage
      ({ s with current_stage_index := stage_index },
       [Action.mfcSetRange 1 w.rangeValue w.rangeUnit,
        Action.mfcSetFlowSetpoint 1 w.flow_rate])
    else (s, [])
  else (s, [])

/-- The furnace completion checks of `handle_furnace_data`: when heating,
stop on a segment beyond the configured stages, or on a wrap back to
segment 0 after a recorded stage index. -/
def completion_check (s1 : CtrlState) (snap : Snapshot) : CtrlState × List Action :=
  if s1.heating_in_progress then
    if stage_of snap.segment > (s1.stages.length : ℤ) then stop_furnace s1
    else if s1.current_stage_index ≠ -1 ∧ stage_index_of snap.segment = -1 then
      stop_furnace s1
    else (s1, [])
  else (s1, [])

/-- The post-annealing flow block of `handle_furnace_data`: below 30 °C
with `post_anneal_flow` set, reset the range, zero the flow setpoint,
close the valve and clear the flag. -/
def post_anneal_shutoff (s2 : CtrlState) (snap : Snapshot) : CtrlState × List Action :=
  if snap.temp < 30 ∧ s2.post_anneal_flow then
    ({ s2 with post_anneal_flow := false },
     [Action.mfcSetRange 1 500 "SCCM", Action.mfcSetFlowSetpoint 1 0,
      Action.mfcCloseValve 1])
  else (s2, [])

/-- `MainWindow.handle_furnace_data`, state-relevant part, in source
order: (1) the MFC stage-change block, (2) the furnace completion checks
(which may call `stop_furnace`), (3) the post-anneal shutoff block.  The
returned list is every instrument command issued, in order. -/
def handle_furnace_data (s : CtrlState) (snap : Snapshot) : CtrlState × List Action :=
  let p1 := mfc_stage_update s snap
  let p2 := completion_check p1.1 snap
  let p3 := post_anneal_shutoff p2.1 snap
  (p3.1, p1.2 ++ p2.2 ++ p3.2)

/-- Feed a list of snapshots through `handle_furnace_data`, collecting
every command issued. -/
def run_snapshots (s : CtrlState) : List Snapshot → CtrlState × List Action
  | [] => (s, [])
  | snap :: rest =>
    let p := handle_furnace_data s snap
    let q := run_snapshots p.1 rest
    (q.1, p.2 ++ q.2)

/-- The segment-configuration loop of `MainWindow.start_furnace`
(`for i, stage_widget in enumerate(self.stages)`), with `i` the
enumeration counter: ramp segment `i*2+1` and hold segment `i*2+2` both
get the stage temperature, then their respective durations. -/
def stage_writes : ℕ → List Stage → List Action
  | _, [] => []
  | i, w :: rest =>
    [Action.furnaceSetSp (i * 2 + 1) w.temperature,
     Action.furnaceSetSp (i * 2 + 2) w.temperature,
     Action.furnaceSetTm (i * 2 + 1) w.ramp_time,
     Action.furnaceSetTm (i * 2 + 2) w.hold_time] ++ stage_writes (i + 1) rest

/-- Zero writes to one segment (body of the clearing loop of
`start_furnace`). -/
def clear_list (segs : List ℕ) : List Action :=
  segs.flatMap (fun sgm => [Action.furnaceSetSp sgm 0, Action.furnaceSetTm sgm 0])

/-- The segments cleared by `start_furnace`:
`range(total_used_segments + 1, 17)`. -/
def clear_segments (stage_count : ℕ) : List ℕ :=
  List.range' (2 * stage_count + 1) (16 - 2 * stage_count)

/-- `MainWindow.start_furnace`: the full ordered command list —
start setpoint, per-stage segment writes, clearing of unused segments,
`run()`, and opening MFC valve 1. -/
def start_furnace (stages : List Stage) : List Action :=
  [Action.furnaceSetStartSetpoint 25]
    ++ stage_writes 0 stages
    ++ clear_list (clear_segments stages.length)
    ++ [Action.furnaceRun, Action.mfcOpenValve 1]

/-- `start_furnace` also raises `heating_in_progress`. -/
def start_furnace_state (s : CtrlState) : CtrlState :=
  { s with heating_in_progress := true }

/-- The UP150 segment registers: setpoint and duration per segment. -/
structure FurnaceMem where
  sp : ℕ → ℕ
  tm : ℕ → ℕ

/-- Apply one action to the furnace registers (non-furnace-write actions
leave them unchanged). -/
def apply_action (m : FurnaceMem) : Action → FurnaceMem
  | Action.furnaceSetSp sgm t => { m with sp := fun k => if k = sgm then t else m.sp k }
  | Action.furnaceSetTm sgm l => { m with tm := fun k => if k = sgm then l else m.tm k }
  | _ => m

/-- Apply a list of actions to the furnace registers, in order. -/
def apply_actions (m : FurnaceMem) (acts : List Action) : FurnaceMem :=
  acts.foldl apply_action m

/-- The MFC device state the controller commands act on: per-channel valve
position, flow setpoint and range, and the selected gas menu. -/
structure MFCState where
  valve_open : ℕ → Bool
  flow_setpoint : ℕ → ℚ
  gas_menu : ℕ
  flow_range : ℕ → ℕ × String

/-- Apply one controller action to the MFC state (furnace actions leave it
unchanged). -/
def mfc_apply (st : MFCState) : Action → MFCState
  | Action.mfcOpenValve ch =>
    { st with valve_open := fun k => if k = ch then true else st.valve_open k }
  | Action.mfcCloseValve ch =>
    { st with valve_open := fun k => if k = ch then false else st.valve_open k }
  | Action.mfcSetFlowSetpoint ch sp =>
    { st with flow_setpoint := fun k => if k = ch then sp else st.flow_setpoint k }
  | Action.mfcSetGasMenu g => { st with gas_menu := g }
  | Action.mfcSetRange ch v u =>
    { st with flow_range := fun k => if k = ch then (v, u) else st.flow_range k }
  | _ => st

/-- Apply a list of controller actions to the MFC state, in order. -/
def mfc_apply_all (st : MFCState) (acts : List Action) : MFCState :=
  acts.foldl mfc_apply st

/-- The MFC commands issued while `MainWindow.__init__` runs: the
`MKS647B` constructor sets the range of channels 1–4 to its defaults
(1 SLM), then `__init__` zeroes the channel-1 flow setpoint, selects gas
menu 0, and opens channel valve 1 and the main valve 0. -/
def mainwindow_init_mfc_actions : List Action :=
  [Action.mfcSetRange 1 1 "SLM", Action.mfcSetRange 2 1 "SLM",
   Action.mfcSetRange 3 1 "SLM", Action.mfcSetRange 4 1 "SLM",
   Action.mfcSetFlowSetpoint 1 0, Action.mfcSetGasMenu 0,
   Action.mfcOpenValve 1, Action.mfcOpenValve 0]

/-- The controller state as `MainWindow.__init__` leaves it: no stages,
`current_stage_index = -1`, not heating, no post-anneal flow. -/
def initial_ctrl_state : CtrlState :=
  { stages := [], current_stage_index := -1, heating_in_progress := false,
    post_anneal_flow := false }

/-- A stage record read from a recipe JSON file; `none` in a field models
a missing key (a Python `KeyError` on access). -/
structure StageRecord where
  temperature : Option ℕ
  ramp_time : Option ℕ
  hold_time : Option ℕ
  flow_rate : Option ℚ
  range : Option (ℕ × String)
  deriving DecidableEq, Repr

/-- A fully populated record, as a `Stage`. -/
def to_stage (r : StageRecord) : Stage :=
  { temperature := r.temperature.getD 0, ramp_time := r.ramp_time.getD 0,
    hold_time := r.hold_time.getD 0, flow_rate := r.flow_rate.getD 0,
    rangeValue := (r.range.getD (500, "SCCM")).1,
    rangeUnit := (r.range.getD (500, "SCCM")).2 }

/-- All five fields present. -/
def record_complete (r : StageRecord) : Prop :=
  r.temperature.isSome = true ∧ r.ramp_time.isSome = true ∧
    r.hold_time.isSome = true ∧ r.flow_rate.isSome = true ∧ r.range.isSome = true

instance (r : StageRecord) : Decidable (record_complete r) := by
  unfold record_complete
  infer_instance

/-- `MainWindow.add_stage`: append a fresh widget unless 8 stages exist. -/
def add_stage (stages : List Stage) : List Stage :=
  if stages.length ≥ 8 then stages else stages ++ [defaultStage]

/-- Mutate the last element of the list (`self.stages[-1]`); on the empty
list Python would raise, but every caller first runs `add_stage`. -/
def update_last : List Stage → (Stage → Stage) → List Stage
  | [], _ => []
  | [w], f => [f w]
  | w :: rest, f => w :: update_last rest f

/-- The body of the `for stage_data in data.get("stages", [])` loop of
`MainWindow.load_recipe`: `add_stage`, then set the widget fields in
source order (temperature, ramp time, hold time, range, flow rate),
stopping with `false` at the first missing key. -/
def apply_record (stages : List Stage) (r : StageRecord) : List Stage × Bool :=
  let s1 := add_stage stages
  match r.temperature with
  | none => (s1, false)
  | some t =>
    let s2 := update_last s1 (fun w => { w with temperature := t })
    match r.ramp_time with
    | none => (s2, false)
    | some rt =>
      let s3 := update_last s2 (fun w => { w with ramp_time := rt })
      match r.hold_time with
      | none => (s3, false)
      | some ht =>
        let s4 := update_last s3 (fun w => { w with hold_time := ht })
        match r.range with
        | none => (s4, false)
        | some rg =>
          let s5 := update_last s4 (fun w => { w with rangeValue := rg.1, rangeUnit := rg.2 })
          match r.flow_rate with
          | none => (s5, false)
          | some fr => (update_last s5 (fun w => { w with flow_rate := fr }), true)

/-- Run the record loop until done or until a record fails; the boolean
reports success, and the list is the stage model as the loop leaves it. -/
def apply_records : List Stage → List StageRecord → List Stage × Bool
  | stages, [] => (stages, true)
  | stages, r :: rest =>
    let p := apply_record stages r
    if p.2 then apply_records p.1 rest else p

/-- `MainWindow.load_recipe`: `none` models a file `json.load` rejects
(the model is untouched, since the exception fires before any stage is
removed); otherwise existing stages are all removed and the records are
applied in file order. -/
def load_recipe (stages : List Stage) (file : Option (List StageRecord)) :
    List Stage × Bool :=
  match file with
  | none => (stages, false)
  | some records => apply_records [] records

end MainWindow

/-! ## Theorems -/

theorem abs_pyRound_sub_le (q : ℚ) : |(pyRound q : ℚ) - q| ≤ 1/2 := by
  have h1 : (⌊q⌋ : ℚ) ≤ q := Int.floor_le q
  have h2 : q < ⌊q⌋ + 1 := Int.lt_floor_add_one q
  unfold pyRound
  split_ifs with ha hb hc
  · rw [abs_sub_comm, abs_of_nonneg (by linarith)]
    linarith
  · rw [abs_of_nonneg (by push_cast; linarith)]
    push_cast
    linarith
  · rw [abs_sub_comm, abs_of_nonneg (by linarith)]
    linarith
  · rw [abs_of_nonneg (by push_cast; linarith)]
    push_cast
    linarith

namespace MKS647B

theorem iterate_query_eq (replies : ℕ → List Char) :
    iterate_query replies =
      iterate_query_loop [replies 0, replies 1, replies 2, replies 3, replies 4] [] := rfl

theorem iterate_query_loop_cons_err (v : List Char) (rest : List (List Char))
    (last : List Char) (h : v.head? = some 'E') :
    iterate_query_loop (v :: rest) last = iterate_query_loop rest v := by
  simp [iterate_query_loop, h]

theorem iterate_query_loop_cons_ok (v : List Char) (rest : List (List Char))
    (last : List Char) (c : Char) (h : v.head? = some c) (hc : c ≠ 'E') :
    iterate_query_loop (v :: rest) last = Except.ok v := by
  simp [iterate_query_loop, h, hc]

theorem iterate_query_loop_nil (last : List Char) :
    iterate_query_loop [] last = Except.error (decode_error last) := rfl

end MKS647B

/-- C5: an MFC query is attempted at most 5 times; it returns the first
reply not beginning with the error sentinel 'E', and if all 5 replies
begin with the sentinel, the call fails with the classification decoded
from the second character of the last reply; in particular a sentinel
reply with second character '4' on all 5 attempts fails with the
invalid-value classification. -/
theorem C5_iterate_query_retry_policy :
    (∀ replies : ℕ → List Char, ∀ i, i < MKS647B.MAX_COUNT →
      (∀ j, j < i → (replies j).head? = some 'E') →
      ∀ c, (replies i).head? = some c → c ≠ 'E' →
      MKS647B.iterate_query replies = Except.ok (replies i))
    ∧ (∀ replies : ℕ → List Char,
      (∀ i, i < MKS647B.MAX_COUNT → (replies i).head? = some 'E') →
      MKS647B.iterate_query replies =
          Except.error (MKS647B.decode_error (replies 4))
        ∧ ((replies 4).get? 1 = some '4' →
          MKS647B.iterate_query replies =
            Except.error MKS647B.MKSError.invalidValue)) := by
  constructor
  · intro replies i hi hprev c hc hcE
    rw [MKS647B.iterate_query_eq]
    simp only [MKS647B.MAX_COUNT] at hi
    interval_cases i
    · rw [MKS647B.iterate_query_loop_cons_ok _ _ _ c hc hcE]
    · rw [MKS647B.iterate_query_loop_cons_err _ _ _ (hprev 0 (by decide)),
        MKS647B.iterate_query_loop_cons_ok _ _ _ c hc hcE]
    · rw [MKS647B.iterate_query_loop_cons_err _ _ _ (hprev 0 (by decide)),
        MKS647B.iterate_query_loop_cons_err _ _ _ (hprev 1 (by decide)),
        MKS647B.iterate_query_loop_cons_ok _ _ _ c hc hcE]
    · rw [MKS647B.iterate_query_loop_cons_err _ _ _ (hprev 0 (by decide)),
        MKS647B.iterate_query_loop_cons_err _ _ _ (hprev 1 (by decide)),
        MKS647B.iterate_query_loop_cons_err _ _ _ (hprev 2 (by decide)),
        MKS647B.iterate_query_loop_cons_ok _ _ _ c hc hcE]
    · rw [MKS647B.iterate_query_loop_cons_err _ _ _ (hprev 0 (by decide)),
        MKS647B.iterate_query_loop_cons_err _ _ _ (hprev 1 (by decide)),
        MKS647B.iterate_query_loop_cons_err _ _ _ (hprev 2 (by decide)),
        MKS647B.iterate_query_loop_cons_err _ _ _ (hprev 3 (by decide)),
        MKS647B.iterate_query_loop_cons_ok _ _ _ c hc hcE]
  · intro replies hall
    have hrun : MKS647B.iterate_query replies =
        Except.error (MKS647B.decode_error (replies 4)) := by
      rw [MKS647B.iterate_query_eq,
        MKS647B.iterate_query_loop_cons_err _ _ _ (hall 0 (by decide)),
        MKS647B.iterate_query_loop_cons_err _ _ _ (hall 1 (by decide)),
        MKS647B.iterate_query_loop_cons_err _ _ _ (hall 2 (by decide)),
        MKS647B.iterate_query_loop_cons_err _ _ _ (hall 3 (by decide)),
        MKS647B.iterate_query_loop_cons_err _ _ _ (hall 4 (by decide)),
        MKS647B.iterate_query_loop_nil]
    refine ⟨hrun, fun h4 => ?_⟩
    have hdec : MKS647B.decode_error (replies 4) = MKS647B.MKSError.invalidValue := by
      unfold MKS647B.decode_error
      rw [h4]
      decide
    rw [hrun, hdec]

/-- Witness for C5 at the concrete reply "E4" on all attempts. -/
theorem C5_iterate_query_retry_policy_witness :
    MKS647B.iterate_query (fun _ => ['E', '4']) =
      Except.error MKS647B.MKSError.invalidValue :=
  (C5_iterate_query_retry_policy.2 (fun _ => ['E', '4'])
    (fun _ _ => rfl)).2 rfl

/-- C6 counterexample: for range factor 1 and gas correction factor 1/10,
the engineering value 3/20000 encodes to device value 2 and decodes back
to 0, an error of 3/20000, which exceeds one unit of the 1000-scaled
integer representation (range_factor * correction_factor / 1000 =
1/10000).  So the round-trip bound does not hold for every fixed
correction factor. -/
theorem C6_roundtrip_cex :
    MKS647B.flow_engineering_value 1 (1/10)
        (MKS647B.flow_device_value 1 (1/10) (3/20000)) = 0
    ∧ |MKS647B.flow_engineering_value 1 (1/10)
        (MKS647B.flow_device_value 1 (1/10) (3/20000)) - 3/20000|
      > 1 * (1/10) / 1000 := by
  have hdev : MKS647B.flow_device_value 1 (1/10) (3/20000) = 2 := by
    norm_num [MKS647B.flow_device_value, pyRound, Int.even_add_one]
  have heng : MKS647B.flow_engineering_value 1 (1/10) 2 = 0 := by
    norm_num [MKS647B.flow_engineering_value, pyRound3, pyRound]
  rw [hdev, heng]
  norm_num
  rw [abs_of_nonneg (by norm_num : (0:ℚ) ≤ 3/20000)]
  norm_num

/-- C6 (amended): for every engineering flow value, positive range factor
and gas correction factor at least 1, encoding through the MFC scaling
formula and decoding through the read transform recovers the value to
within one unit of the 1000-scaled integer representation
(range_factor * correction_factor / 1000). -/
theorem C6_roundtrip_within_tolerance (v rf cf : ℚ) (hrf : 0 < rf) (hcf : 1 ≤ cf) :
    |MKS647B.flow_engineering_value rf cf (MKS647B.flow_device_value rf cf v) - v|
      ≤ rf * cf / 1000 := by
  have hcf0 : (0:ℚ) < cf := lt_of_lt_of_le zero_lt_one hcf
  have hrfne : rf ≠ 0 := ne_of_gt hrf
  have hcfne : cf ≠ 0 := ne_of_gt hcf0
  set t : ℚ := v / rf / cf * 1000 with ht
  set x : ℤ := pyRound t with hx
  have h1 : |(x : ℚ) - t| ≤ 1/2 := abs_pyRound_sub_le t
  set y : ℚ := (x : ℚ) * cf with hy
  have h2 : |(pyRound y : ℚ) - y| ≤ 1/2 := abs_pyRound_sub_le y
  have hval : MKS647B.flow_engineering_value rf cf (MKS647B.flow_device_value rf cf v)
      = (pyRound y : ℚ) / 1000 * rf := by
    unfold MKS647B.flow_engineering_value MKS647B.flow_device_value pyRound3
    rw [← ht, ← hx]
    have harg : (x : ℚ) * cf / 1000 * 1000 = y := by
      rw [hy]
      ring
    rw [harg]
  have hveq : v = t * rf * cf / 1000 := by
    rw [ht]
    field_simp
    ring
  have expand : (pyRound y : ℚ) / 1000 * rf - t * rf * cf / 1000
      = rf / 1000 * (((pyRound y : ℚ) - y) + cf * ((x : ℚ) - t)) := by
    rw [hy]
    ring
  rw [hval]
  nth_rewrite 1 [hveq]
  rw [expand, abs_mul, abs_of_pos (by positivity : (0:ℚ) < rf / 1000)]
  have htri : |((pyRound y : ℚ) - y) + cf * ((x : ℚ) - t)| ≤ 1/2 + cf * (1/2) := by
    calc |((pyRound y : ℚ) - y) + cf * ((x : ℚ) - t)|
        ≤ |(pyRound y : ℚ) - y| + |cf * ((x : ℚ) - t)| := abs_add _ _
      _ = |(pyRound y : ℚ) - y| + cf * |(x : ℚ) - t| := by
          rw [abs_mul, abs_of_pos hcf0]
      _ ≤ 1/2 + cf * (1/2) := by
          have := mul_le_mul_of_nonneg_left h1 hcf0.le
          linarith
  calc rf / 1000 * |((pyRound y : ℚ) - y) + cf * ((x : ℚ) - t)|
      ≤ rf / 1000 * (1/2 + cf * (1/2)) :=
        mul_le_mul_of_nonneg_left htri (by positivity)
    _ ≤ rf * cf / 1000 := by nlinarith

/-- Witness for C6 at v = 1, range factor 1, correction factor 1. -/
theorem C6_roundtrip_within_tolerance_witness :
    |MKS647B.flow_engineering_value 1 1 (MKS647B.flow_device_value 1 1 1) - 1|
      ≤ 1 * 1 / 1000 :=
  C6_roundtrip_within_tolerance 1 1 1 (by norm_num) (le_refl 1)

namespace MainWindow

theorem stage_index_of_eq_neg_one_iff (seg : ℕ) :
    stage_index_of seg = -1 ↔ seg = 0 := by
  unfold stage_index_of
  omega

theorem stage_index_of_nonneg_iff (seg : ℕ) :
    0 ≤ stage_index_of seg ↔ 1 ≤ seg := by
  unfold stage_index_of
  omega

theorem stage_of_gt_iff (seg n : ℕ) :
    stage_of seg > (n : ℤ) ↔ (seg : ℤ) > 2 * n := by
  unfold stage_of stage_index_of
  omega

theorem mfc_stage_update_pos (s : CtrlState) (snap : Snapshot)
    (h : s.current_stage_index ≠ stage_index_of snap.segment
      ∧ 0 ≤ stage_index_of snap.segment
      ∧ stage_index_of snap.segment < (s.stages.length : ℤ)) :
    mfc_stage_update s snap =
      ({ s with current_stage_index := stage_index_of snap.segment },
       [Action.mfcSetRange 1
          (s.stages.getD (stage_index_of snap.segment).toNat defaultStage).rangeValue
          (s.stages.getD (stage_index_of snap.segment).toNat defaultStage).rangeUnit,
        Action.mfcSetFlowSetpoint 1
          (s.stages.getD (stage_index_of snap.segment).toNat defaultStage).flow_rate]) := by
  unfold mfc_stage_update
  rw [if_pos h.1, if_pos ⟨h.2.1, h.2.2⟩]

theorem mfc_stage_update_neg (s : CtrlState) (snap : Snapshot)
    (h : ¬(s.current_stage_index ≠ stage_index_of snap.segment
      ∧ 0 ≤ stage_index_of snap.segment
      ∧ stage_index_of snap.segment < (s.stages.length : ℤ))) :
    mfc_stage_update s snap = (s, []) := by
  unfold mfc_stage_update
  by_cases h1 : s.current_stage_index ≠ stage_index_of snap.segment
  · rw [if_pos h1, if_neg (by tauto)]
  · rw [if_neg h1]

theorem completion_check_not_heating (s1 : CtrlState) (snap : Snapshot)
    (h : s1.heating_in_progress = false) :
    completion_check s1 snap = (s1, []) := by
  unfold completion_check
  rw [h]
  simp

theorem completion_check_overrun (s1 : CtrlState) (snap : Snapshot)
    (hh : s1.heating_in_progress = true)
    (h : stage_of snap.segment > (s1.stages.length : ℤ)) :
    completion_check s1 snap = stop_furnace s1 := by
  unfold completion_check
  rw [hh, if_pos rfl, if_pos h]

theorem completion_check_wrap (s1 : CtrlState) (snap : Snapshot)
    (hh : s1.heating_in_progress = true)
    (h1 : ¬ stage_of snap.segment > (s1.stages.length : ℤ))
    (h2 : s1.current_stage_index ≠ -1 ∧ stage_index_of snap.segment = -1) :
    completion_check s1 snap = stop_furnace s1 := by
  unfold completion_check
  rw [hh, if_pos rfl, if_neg h1, if_pos h2]

theorem completion_check_quiet (s1 : CtrlState) (snap : Snapshot)
    (h1 : ¬ stage_of snap.segment > (s1.stages.length : ℤ))
    (h2 : ¬(s1.current_stage_index ≠ -1 ∧ stage_index_of snap.segment = -1)) :
    completion_check s1 snap = (s1, []) := by
  unfold completion_check
  by_cases hh : s1.heating_in_progress
  · rw [hh, if_pos rfl, if_neg h1, if_neg h2]
  · rw [if_neg hh]

theorem post_anneal_shutoff_pos (s2 : CtrlState) (snap : Snapshot)
    (h : snap.temp < 30 ∧ s2.post_anneal_flow = true) :
    post_anneal_shutoff s2 snap =
      ({ s2 with post_anneal_flow := false },
       [Action.mfcSetRange 1 500 "SCCM", Action.mfcSetFlowSetpoint 1 0,
        Action.mfcCloseValve 1]) := by
  unfold post_anneal_shutoff
  rw [if_pos ⟨h.1, h.2⟩]

theorem post_anneal_shutoff_neg (s2 : CtrlState) (snap : Snapshot)
    (h : ¬(snap.temp < 30 ∧ s2.post_anneal_flow = true)) :
    post_anneal_shutoff s2 snap = (s2, []) := by
  unfold post_anneal_shutoff
  rw [if_neg (by simpa using h)]

theorem handle_furnace_data_eq (s : CtrlState) (snap : Snapshot) :
    handle_furnace_data s snap =
      ((post_anneal_shutoff (completion_check (mfc_stage_update s snap).1 snap).1 snap).1,
       (mfc_stage_update s snap).2
         ++ (completion_check (mfc_stage_update s snap).1 snap).2
         ++ (post_anneal_shutoff (completion_check (mfc_stage_update s snap).1 snap).1 snap).2) := rfl

end MainWindow

namespace MainWindow

theorem mfc_stage_update_fields (s : CtrlState) (snap : Snapshot) :
    (mfc_stage_update s snap).1.stages = s.stages
    ∧ (mfc_stage_update s snap).1.heating_in_progress = s.heating_in_progress
    ∧ (mfc_stage_update s snap).1.post_anneal_flow = s.post_anneal_flow := by
  unfold mfc_stage_update
  dsimp only
  split_ifs <;> simp

theorem mfc_stage_update_no_reset (s : CtrlState) (snap : Snapshot) :
    Action.furnaceReset ∉ (mfc_stage_update s snap).2 := by
  unfold mfc_stage_update
  dsimp only
  split_ifs <;> simp

theorem post_anneal_shutoff_keeps (s : CtrlState) (snap : Snapshot) :
    (post_anneal_shutoff s snap).1.heating_in_progress = s.heating_in_progress
    ∧ (post_anneal_shutoff s snap).1.current_stage_index = s.current_stage_index
    ∧ (post_anneal_shutoff s snap).1.stages = s.stages := by
  unfold post_anneal_shutoff
  split_ifs <;> simp

theorem post_anneal_shutoff_no_reset (s : CtrlState) (snap : Snapshot) :
    Action.furnaceReset ∉ (post_anneal_shutoff s snap).2 := by
  unfold post_anneal_shutoff
  split_ifs <;> simp

/-- With heating off, no snapshot can issue a furnace reset or restart
heating. -/
theorem handle_not_heating (s : CtrlState) (snap : Snapshot)
    (hh : s.heating_in_progress = false) :
    Action.furnaceReset ∉ (handle_furnace_data s snap).2
    ∧ (handle_furnace_data s snap).1.heating_in_progress = false := by
  rw [handle_furnace_data_eq]
  have hf := mfc_stage_update_fields s snap
  have hq := completion_check_not_heating (mfc_stage_update s snap).1 snap
    (hf.2.1.trans hh)
  rw [hq]
  have hk := post_anneal_shutoff_keeps (mfc_stage_update s snap).1 snap
  constructor
  · simp only [List.mem_append]
    push_neg
    exact ⟨⟨mfc_stage_update_no_reset s snap, by simp⟩,
      post_anneal_shutoff_no_reset _ snap⟩
  · rw [hk.1, hf.2.1, hh]

end MainWindow

/-- C1: while heating, `handle_furnace_data` ends the run exactly when the
snapshot's segment exceeds the highest configured segment (overrun) or the
segment counter reads 0 with a stage index recorded (wraparound, the
sentinel `-1` meaning none recorded); both cases reset the furnace and set
the MFC to the 500 SCCM safe range with the 6 SCCM purge setpoint, and a
wraparound snapshot triggers exactly one transition — afterwards no poll
can issue another reset. -/
theorem C1_completion_transition (s : MainWindow.CtrlState)
    (snap : MainWindow.Snapshot)
    (hh : s.heating_in_progress = true) :
    ((MainWindow.handle_furnace_data s snap).1.heating_in_progress = false ↔
      ((snap.segment : ℤ) > 2 * s.stages.length
        ∨ (snap.segment = 0 ∧ s.current_stage_index ≠ -1)))
    ∧ (((snap.segment : ℤ) > 2 * s.stages.length
        ∨ (snap.segment = 0 ∧ s.current_stage_index ≠ -1)) →
        List.Sublist
          [MainWindow.Action.furnaceReset,
           MainWindow.Action.mfcSetRange 1 500 "SCCM",
           MainWindow.Action.mfcSetFlowSetpoint 1 MainWindow.POST_ANNEAL_FLOW_RATE]
          (MainWindow.handle_furnace_data s snap).2
        ∧ (MainWindow.handle_furnace_data s snap).1.current_stage_index = -1
        ∧ (30 ≤ snap.temp →
            (MainWindow.handle_furnace_data s snap).1.post_anneal_flow = true))
    ∧ (snap.segment = 0 → s.current_stage_index ≠ -1 →
        ∀ snap2 : MainWindow.Snapshot,
          MainWindow.Action.furnaceReset ∉
            (MainWindow.handle_furnace_data
              (MainWindow.handle_furnace_data s snap).1 snap2).2
          ∧ (MainWindow.handle_furnace_data
              (MainWindow.handle_furnace_data s snap).1 snap2).1.heating_in_progress
            = false) := by
  have hf := MainWindow.mfc_stage_update_fields s snap
  by_cases hseg : snap.segment = 0
  · have hsi : MainWindow.stage_index_of snap.segment = -1 :=
      (MainWindow.stage_index_of_eq_neg_one_iff _).mpr hseg
    have hp1 : MainWindow.mfc_stage_update s snap = (s, []) := by
      apply MainWindow.mfc_stage_update_neg
      rw [hsi]
      intro hcontra
      have := hcontra.2.1
      norm_num at this
    have hnover : ¬ MainWindow.stage_of snap.segment > ((s.stages.length : ℤ)) := by
      rw [MainWindow.stage_of_gt_iff]
      simp [hseg]
    by_cases hcs : s.current_stage_index = -1
    · have hp2 : MainWindow.completion_check s snap = (s, []) :=
        MainWindow.completion_check_quiet s snap hnover (by rw [hsi]; tauto)
      have hexp : MainWindow.handle_furnace_data s snap =
          ((MainWindow.post_anneal_shutoff s snap).1,
           [] ++ [] ++ (MainWindow.post_anneal_shutoff s snap).2) := by
        rw [MainWindow.handle_furnace_data_eq, hp1]
        dsimp only
        rw [hp2]
      have hheat : (MainWindow.handle_furnace_data s snap).1.heating_in_progress = true := by
        rw [hexp]
        exact (MainWindow.post_anneal_shutoff_keeps s snap).1.trans hh
      have hnotrig : ¬((snap.segment : ℤ) > 2 * s.stages.length
          ∨ (snap.segment = 0 ∧ s.current_stage_index ≠ -1)) := by
        rintro (h | h)
        · exact hnover ((MainWindow.stage_of_gt_iff _ _).mpr h)
        · exact h.2 hcs
      refine ⟨?_, fun htrig => absurd htrig hnotrig, fun _ hcsne => absurd hcs hcsne⟩
      rw [hheat]
      simp only [Bool.true_eq_false, false_iff]
      exact hnotrig
    · have hp2 : MainWindow.completion_check s snap = MainWindow.stop_furnace s :=
        MainWindow.completion_check_wrap s snap hh hnover ⟨hcs, hsi⟩
      have hexp : MainWindow.handle_furnace_data s snap =
          ((MainWindow.post_anneal_shutoff (MainWindow.stop_furnace s).1 snap).1,
           [] ++ (MainWindow.stop_furnace s).2
             ++ (MainWindow.post_anneal_shutoff (MainWindow.stop_furnace s).1 snap).2) := by
        rw [MainWindow.handle_furnace_data_eq, hp1]
        dsimp only
        rw [hp2]
      have hkeep := MainWindow.post_anneal_shutoff_keeps (MainWindow.stop_furnace s).1 snap
      have hheat : (MainWindow.handle_furnace_data s snap).1.heating_in_progress = false := by
        rw [hexp]
        exact hkeep.1.trans rfl
      refine ⟨?_, fun _ => ⟨?_, ?_, ?_⟩, fun _ _ snap2 => ?_⟩
      · rw [hheat]
        simp only [true_iff]
        exact Or.inr ⟨hseg, hcs⟩
      · rw [hexp]
        simp only [List.nil_append]
        exact (List.sublist_append_left _ _)
      · rw [hexp]
        exact hkeep.2.1.trans rfl
      · intro htemp
        rw [hexp]
        have : MainWindow.post_anneal_shutoff (MainWindow.stop_furnace s).1 snap
            = ((MainWindow.stop_furnace s).1, []) :=
          MainWindow.post_anneal_shutoff_neg _ snap (by intro h; omega)
        rw [this]
        rfl
      · exact MainWindow.handle_not_heating _ snap2 hheat
  · have hsi_ge : 0 ≤ MainWindow.stage_index_of snap.segment :=
      (MainWindow.stage_index_of_nonneg_iff _).mpr (by omega)
    have hsine : MainWindow.stage_index_of snap.segment ≠ -1 := by omega
    by_cases hover : (snap.segment : ℤ) > 2 * s.stages.length
    · have hstage : MainWindow.stage_of snap.segment
          > (((MainWindow.mfc_stage_update s snap).1.stages.length : ℕ) : ℤ) := by
        rw [hf.1]
        exact (MainWindow.stage_of_gt_iff _ _).mpr hover
      have hp2 : MainWindow.completion_check (MainWindow.mfc_stage_update s snap).1 snap
          = MainWindow.stop_furnace (MainWindow.mfc_stage_update s snap).1 :=
        MainWindow.completion_check_overrun _ snap (hf.2.1.trans hh) hstage
      have hexp : MainWindow.handle_furnace_data s snap =
          ((MainWindow.post_anneal_shutoff
              (MainWindow.stop_furnace (MainWindow.mfc_stage_update s snap).1).1 snap).1,
           (MainWindow.mfc_stage_update s snap).2
             ++ (MainWindow.stop_furnace (MainWindow.mfc_stage_update s snap).1).2
             ++ (MainWindow.post_anneal_shutoff
                  (MainWindow.stop_furnace (MainWindow.mfc_stage_update s snap).1).1 snap).2) := by
        rw [MainWindow.handle_furnace_data_eq, hp2]
      have hkeep := MainWindow.post_anneal_shutoff_keeps
        (MainWindow.stop_furnace (MainWindow.mfc_stage_update s snap).1).1 snap
      have hheat : (MainWindow.handle_furnace_data s snap).1.heating_in_progress = false := by
        rw [hexp]
        exact hkeep.1.trans rfl
      refine ⟨?_, fun _ => ⟨?_, ?_, ?_⟩, fun h0 _ _ => absurd h0 hseg⟩
      · rw [hheat]
        simp only [true_iff]
        exact Or.inl hover
      · rw [hexp]
        exact (List.sublist_append_right _ _).trans (List.sublist_append_left _ _)
      · rw [hexp]
        exact hkeep.2.1.trans rfl
      · intro htemp
        rw [hexp]
        have : MainWindow.post_anneal_shutoff
            (MainWindow.stop_furnace (MainWindow.mfc_stage_update s snap).1).1 snap
            = ((MainWindow.stop_furnace (MainWindow.mfc_stage_update s snap).1).1, []) :=
          MainWindow.post_anneal_shutoff_neg _ snap (by intro h; omega)
        rw [this]
        rfl
    · have hnover : ¬ MainWindow.stage_of snap.segment
          > (((MainWindow.mfc_stage_update s snap).1.stages.length : ℤ)) := by
        rw [hf.1, MainWindow.stage_of_gt_iff]
        omega
      have hp2 : MainWindow.completion_check (MainWindow.mfc_stage_update s snap).1 snap
          = ((MainWindow.mfc_stage_update s snap).1, []) :=
        MainWindow.completion_check_quiet _ snap hnover (fun hcontra => hsine hcontra.2)
      have hexp : MainWindow.handle_furnace_data s snap =
          ((MainWindow.post_anneal_shutoff (MainWindow.mfc_stage_update s snap).1 snap).1,
           (MainWindow.mfc_stage_update s snap).2 ++ []
             ++ (MainWindow.post_anneal_shutoff (MainWindow.mfc_stage_update s snap).1 snap).2) := by
        rw [MainWindow.handle_furnace_data_eq, hp2]
      have hheat : (MainWindow.handle_furnace_data s snap).1.heating_in_progress = true := by
        rw [hexp]
        exact (MainWindow.post_anneal_shutoff_keeps _ snap).1.trans (hf.2.1.trans hh)
      have hnotrig : ¬((snap.segment : ℤ) > 2 * s.stages.length
          ∨ (snap.segment = 0 ∧ s.current_stage_index ≠ -1)) := by
        rintro (h | h)
        · exact hover h
        · exact hseg h.1
      refine ⟨?_, fun htrig => absurd htrig hnotrig, fun h0 _ _ => absurd h0 hseg⟩
      rw [hheat]
      simp only [Bool.true_eq_false, false_iff]
      exact hnotrig

/-- Witness for C1: a wraparound snapshot (segment 0 with stage index 0
recorded, heating) ends the run. -/
theorem C1_completion_transition_witness :
    (MainWindow.handle_furnace_data
      { stages := [], current_stage_index := 0, heating_in_progress := true,
        post_anneal_flow := false }
      { segment := 0, time_left := 0, temp := 100, flow := 0, range_code := 8,
        setpoint := 0 }).1.heating_in_progress = false :=
  ((C1_completion_transition _ _ rfl).1).mpr (Or.inr ⟨rfl, by decide⟩)

namespace MainWindow

theorem mfc_stage_update_no_close (s : CtrlState) (snap : Snapshot) :
    Action.mfcCloseValve 1 ∉ (mfc_stage_update s snap).2 := by
  unfold mfc_stage_update
  dsimp only
  split_ifs <;> simp

end MainWindow

/-- C2: in PostAnneal (flag set, not heating), a snapshot clears the flag
iff its temperature is strictly below 30 °C; the first such snapshot runs
the safe shutoff (reset range, zero setpoint, close valve 1) as the final
commands of that poll, a warmer snapshot leaves the flag set and closes no
valve, and on the sequence 45 → 32 → 28 the shutoff runs exactly once, at
the first sample below 30. -/
theorem C2_post_anneal_exit (s : MainWindow.CtrlState) (snap : MainWindow.Snapshot)
    (hpa : s.post_anneal_flow = true) (hh : s.heating_in_progress = false) :
    ((MainWindow.handle_furnace_data s snap).1.post_anneal_flow = false ↔ snap.temp < 30)
    ∧ (snap.temp < 30 →
        ∃ pre, (MainWindow.handle_furnace_data s snap).2
          = pre ++ [MainWindow.Action.mfcSetRange 1 500 "SCCM",
                    MainWindow.Action.mfcSetFlowSetpoint 1 0,
                    MainWindow.Action.mfcCloseValve 1])
    ∧ (¬ snap.temp < 30 →
        (MainWindow.handle_furnace_data s snap).1.post_anneal_flow = true
        ∧ MainWindow.Action.mfcCloseValve 1 ∉ (MainWindow.handle_furnace_data s snap).2)
    ∧ ((MainWindow.run_snapshots
          { stages := [], current_stage_index := -1, heating_in_progress := false,
            post_anneal_flow := true }
          [{ segment := 0, time_left := 0, temp := 45, flow := 0, range_code := 8, setpoint := 0 },
           { segment := 0, time_left := 0, temp := 32, flow := 0, range_code := 8, setpoint := 0 }]).2.count
            (MainWindow.Action.mfcCloseValve 1) = 0
        ∧ (MainWindow.run_snapshots
          { stages := [], current_stage_index := -1, heating_in_progress := false,
            post_anneal_flow := true }
          [{ segment := 0, time_left := 0, temp := 45, flow := 0, range_code := 8, setpoint := 0 },
           { segment := 0, time_left := 0, temp := 32, flow := 0, range_code := 8, setpoint := 0 },
           { segment := 0, time_left := 0, temp := 28, flow := 0, range_code := 8, setpoint := 0 }]).2.count
            (MainWindow.Action.mfcCloseValve 1) = 1) := by
  have hf := MainWindow.mfc_stage_update_fields s snap
  have hp2 : MainWindow.completion_check (MainWindow.mfc_stage_update s snap).1 snap
      = ((MainWindow.mfc_stage_update s snap).1, []) :=
    MainWindow.completion_check_not_heating _ snap (hf.2.1.trans hh)
  have hpa1 : (MainWindow.mfc_stage_update s snap).1.post_anneal_flow = true :=
    hf.2.2.trans hpa
  refine ⟨?_, ?_, ?_, by decide⟩
  · constructor
    · intro hfalse
      by_contra htemp
      have hp3 : MainWindow.post_anneal_shutoff (MainWindow.mfc_stage_update s snap).1 snap
          = ((MainWindow.mfc_stage_update s snap).1, []) :=
        MainWindow.post_anneal_shutoff_neg _ snap (fun hc => htemp hc.1)
      rw [MainWindow.handle_furnace_data_eq, hp2] at hfalse
      dsimp only at hfalse
      rw [hp3] at hfalse
      dsimp only at hfalse
      rw [hpa1] at hfalse
      exact Bool.true_eq_false.mp hfalse
    · intro htemp
      have hp3 := MainWindow.post_anneal_shutoff_pos (MainWindow.mfc_stage_update s snap).1 snap
        ⟨htemp, hpa1⟩
      rw [MainWindow.handle_furnace_data_eq, hp2]
      dsimp only
      rw [hp3]
  · intro htemp
    have hp3 := MainWindow.post_anneal_shutoff_pos (MainWindow.mfc_stage_update s snap).1 snap
      ⟨htemp, hpa1⟩
    rw [MainWindow.handle_furnace_data_eq, hp2]
    dsimp only
    rw [hp3]
    exact ⟨(MainWindow.mfc_stage_update s snap).2 ++ [], by simp⟩
  · intro htemp
    have hp3 : MainWindow.post_anneal_shutoff (MainWindow.mfc_stage_update s snap).1 snap
        = ((MainWindow.mfc_stage_update s snap).1, []) :=
      MainWindow.post_anneal_shutoff_neg _ snap (fun hc => htemp hc.1)
    rw [MainWindow.handle_furnace_data_eq, hp2]
    dsimp only
    rw [hp3]
    refine ⟨hpa1, ?_⟩
    simp only [List.append_nil]
    exact MainWindow.mfc_stage_update_no_close s snap

/-- Witness for C2 at a cold snapshot in PostAnneal. -/
theorem C2_post_anneal_exit_witness :
    (MainWindow.handle_furnace_data
      { stages := [], current_stage_index := -1, heating_in_progress := false,
        post_anneal_flow := true }
      { segment := 0, time_left := 0, temp := 28, flow := 0, range_code := 8,
        setpoint := 0 }).1.post_anneal_flow = false :=
  (C2_post_anneal_exit _ _ rfl rfl).1.mpr (by decide)

/-- C7: for a snapshot with positive segment the derived stage is
`1 + (segment-1)//2`; the derived mode is Resting exactly on segment 0,
Ramping exactly on odd segments, Holding exactly on even nonzero
segments; and in a ramp segment the displayed time-left adds the
configured duration of the following hold segment. -/
theorem C7_snapshot_derivation (tm : ℕ → ℕ) (seg tl : ℕ) :
    (0 < seg → MainWindow.stage_of seg = ((1 + (seg - 1) / 2 : ℕ) : ℤ))
    ∧ (MainWindow.derive_mode seg = MainWindow.Mode.Resting ↔ seg = 0)
    ∧ (MainWindow.derive_mode seg = MainWindow.Mode.Ramping ↔ seg % 2 = 1)
    ∧ (MainWindow.derive_mode seg = MainWindow.Mode.Holding ↔ (seg % 2 = 0 ∧ seg ≠ 0))
    ∧ (seg % 2 = 1 →
        MainWindow.displayed_time_left tm seg tl = tl + tm (seg + 1)) := by
  refine ⟨?_, ?_, ?_, ?_, ?_⟩
  · intro hpos
    unfold MainWindow.stage_of MainWindow.stage_index_of
    omega
  · unfold MainWindow.derive_mode
    split_ifs with h1 h2 <;> simp_all
  · unfold MainWindow.derive_mode
    split_ifs with h1 h2 <;> simp_all
  · unfold MainWindow.derive_mode
    split_ifs with h1 h2 <;> simp_all
  · intro hodd
    unfold MainWindow.displayed_time_left
    rw [if_pos ⟨by omega, hodd⟩]

/-- Witness for C7 at segment 3 (ramping) with hold duration 7. -/
theorem C7_snapshot_derivation_witness :
    MainWindow.stage_of 3 = ((1 + (3 - 1) / 2 : ℕ) : ℤ)
    ∧ MainWindow.displayed_time_left (fun _ => 7) 3 10 = 10 + 7 :=
  ⟨(C7_snapshot_derivation (fun _ => 7) 3 10).1 (by decide),
   (C7_snapshot_derivation (fun _ => 7) 3 10).2.2.2.2 (by decide)⟩

namespace MainWindow

/-- When neither completion condition nor the post-anneal shutoff can fire,
a snapshot reduces to the MFC stage-change block alone. -/
theorem handle_quiet_eq (s : CtrlState) (snap : Snapshot)
    (hstop : ¬(s.heating_in_progress = true
      ∧ (((snap.segment : ℕ) : ℤ) > 2 * s.stages.length
        ∨ (snap.segment = 0 ∧ s.current_stage_index ≠ -1))))
    (hpa : ¬(snap.temp < 30 ∧ s.post_anneal_flow = true)) :
    handle_furnace_data s snap
      = ((mfc_stage_update s snap).1, (mfc_stage_update s snap).2 ++ [] ++ []) := by
  have hf := mfc_stage_update_fields s snap
  have hp2 : completion_check (mfc_stage_update s snap).1 snap
      = ((mfc_stage_update s snap).1, []) := by
    by_cases hh : s.heating_in_progress = true
    · have hnA : ¬(((snap.segment : ℕ) : ℤ) > 2 * s.stages.length) :=
        fun hA => hstop ⟨hh, Or.inl hA⟩
      have hnB : ¬(snap.segment = 0 ∧ s.current_stage_index ≠ -1) :=
        fun hB => hstop ⟨hh, Or.inr hB⟩
      apply completion_check_quiet
      · rw [hf.1]
        intro h
        exact hnA ((stage_of_gt_iff _ _).mp h)
      · intro hc
        have hseg : snap.segment = 0 := (stage_index_of_eq_neg_one_iff _).mp hc.2
        have hp1 : mfc_stage_update s snap = (s, []) := by
          apply mfc_stage_update_neg
          rw [hc.2]
          intro hcontra
          have := hcontra.2.1
          norm_num at this
        rw [hp1] at hc
        exact hnB ⟨hseg, hc.1⟩
    · have hh0 : s.heating_in_progress = false := by simpa using hh
      exact completion_check_not_heating _ snap (hf.2.1.trans hh0)
  have hp3 : post_anneal_shutoff (mfc_stage_update s snap).1 snap
      = ((mfc_stage_update s snap).1, []) := by
    apply post_anneal_shutoff_neg
    intro hc
    exact hpa ⟨hc.1, hf.2.2 ▸ hc.2⟩
  rw [handle_furnace_data_eq, hp2]
  dsimp only
  rw [hp3]

end MainWindow

/-- C4 counterexample: on a snapshot whose derived stage index (1) is not
within the configured stage count (one stage), the controller still pushes
an MFC range and flow setpoint — the completion transition's safe
range/purge push — refuting the claimed "only if" direction. -/
theorem C4_mfc_push_cex :
    (MainWindow.Action.mfcSetRange 1 500 "SCCM" ∈
      (MainWindow.handle_furnace_data
        { stages := [{ temperature := 200, ramp_time := 10, hold_time := 5,
                       flow_rate := 50, rangeValue := 500, rangeUnit := "SCCM" }],
          current_stage_index := 0, heating_in_progress := true,
          post_anneal_flow := false }
        { segment := 3, time_left := 0, temp := 100, flow := 0, range_code := 8,
          setpoint := 0 }).2
      ∧ MainWindow.Action.mfcSetFlowSetpoint 1 MainWindow.POST_ANNEAL_FLOW_RATE ∈
      (MainWindow.handle_furnace_data
        { stages := [{ temperature := 200, ramp_time := 10, hold_time := 5,
                       flow_rate := 50, rangeValue := 500, rangeUnit := "SCCM" }],
          current_stage_index := 0, heating_in_progress := true,
          post_anneal_flow := false }
        { segment := 3, time_left := 0, temp := 100, flow := 0, range_code := 8,
          setpoint := 0 }).2)
    ∧ ¬((0 : ℤ) ≠ MainWindow.stage_index_of 3
        ∧ 0 ≤ MainWindow.stage_index_of 3
        ∧ MainWindow.stage_index_of 3 < (1 : ℤ)) := by
  decide

/-- C4 (amended): on snapshots where neither completion condition nor the
post-anneal shutoff fires, the controller pushes MFC commands iff the
derived stage index differs from the recorded one and lies within the
configured stages, in which case it pushes exactly that stage's range and
setpoint and records the index; otherwise it pushes nothing and the index
is unchanged. -/
theorem C4_stage_change_push (s : MainWindow.CtrlState) (snap : MainWindow.Snapshot)
    (hstop : ¬(s.heating_in_progress = true
      ∧ (((snap.segment : ℕ) : ℤ) > 2 * s.stages.length
        ∨ (snap.segment = 0 ∧ s.current_stage_index ≠ -1))))
    (hpa : ¬(snap.temp < 30 ∧ s.post_anneal_flow = true)) :
    ((MainWindow.handle_furnace_data s snap).2 ≠ [] ↔
      (s.current_stage_index ≠ MainWindow.stage_index_of snap.segment
        ∧ 0 ≤ MainWindow.stage_index_of snap.segment
        ∧ MainWindow.stage_index_of snap.segment < (s.stages.length : ℤ)))
    ∧ ((s.current_stage_index ≠ MainWindow.stage_index_of snap.segment
        ∧ 0 ≤ MainWindow.stage_index_of snap.segment
        ∧ MainWindow.stage_index_of snap.segment < (s.stages.length : ℤ)) →
        (MainWindow.handle_furnace_data s snap).2 =
          [MainWindow.Action.mfcSetRange 1
            (s.stages.getD (MainWindow.stage_index_of snap.segment).toNat
              MainWindow.defaultStage).rangeValue
            (s.stages.getD (MainWindow.stage_index_of snap.segment).toNat
              MainWindow.defaultStage).rangeUnit,
           MainWindow.Action.mfcSetFlowSetpoint 1
            (s.stages.getD (MainWindow.stage_index_of snap.segment).toNat
              MainWindow.defaultStage).flow_rate]
        ∧ (MainWindow.handle_furnace_data s snap).1.current_stage_index
          = MainWindow.stage_index_of snap.segment)
    ∧ (¬(s.current_stage_index ≠ MainWindow.stage_index_of snap.segment
        ∧ 0 ≤ MainWindow.stage_index_of snap.segment
        ∧ MainWindow.stage_index_of snap.segment < (s.stages.length : ℤ)) →
        (MainWindow.handle_furnace_data s snap).2 = []
        ∧ (MainWindow.handle_furnace_data s snap).1.current_stage_index
          = s.current_stage_index) := by
  have hq := MainWindow.handle_quiet_eq s snap hstop hpa
  by_cases hcond : s.current_stage_index ≠ MainWindow.stage_index_of snap.segment
      ∧ 0 ≤ MainWindow.stage_index_of snap.segment
      ∧ MainWindow.stage_index_of snap.segment < (s.stages.length : ℤ)
  · have hp1 := MainWindow.mfc_stage_update_pos s snap hcond
    rw [hq, hp1]
    refine ⟨?_, fun _ => ⟨by simp, rfl⟩, fun hn => absurd hcond hn⟩
    simp only [List.append_nil]
    constructor
    · intro _
      exact hcond
    · intro _
      simp
  · have hp1 := MainWindow.mfc_stage_update_neg s snap hcond
    rw [hq, hp1]
    refine ⟨?_, fun hc => absurd hc hcond, fun _ => ⟨by simp, rfl⟩⟩
    simp only [List.append_nil]
    constructor
    · intro habs
      exact absurd rfl habs
    · intro hc
      exact absurd hc hcond

/-- Witness for C4: entering stage 1 (segment 1) from the idle index
pushes that stage's range and setpoint. -/
theorem C4_stage_change_push_witness :
    (MainWindow.handle_furnace_data
      { stages := [{ temperature := 200, ramp_time := 10, hold_time := 5,
                     flow_rate := 50, rangeValue := 500, rangeUnit := "SCCM" }],
        current_stage_index := -1, heating_in_progress := true,
        post_anneal_flow := false }
      { segment := 1, time_left := 0, temp := 100, flow := 0, range_code := 8,
        setpoint := 0 }).2
      = [MainWindow.Action.mfcSetRange 1 500 "SCCM",
         MainWindow.Action.mfcSetFlowSetpoint 1 50] :=
  ((C4_stage_change_push _ _ (by decide) (by decide)).2.1 (by decide)).1

namespace MainWindow

theorem apply_actions_append (m : FurnaceMem) (a b : List Action) :
    apply_actions m (a ++ b) = apply_actions (apply_actions m a) b := by
  simp [apply_actions, List.foldl_append]

theorem apply_clear_list (l : List ℕ) (m : FurnaceMem) (sgm : ℕ) :
    (apply_actions m (clear_list l)).sp sgm = (if sgm ∈ l then 0 else m.sp sgm)
    ∧ (apply_actions m (clear_list l)).tm sgm = (if sgm ∈ l then 0 else m.tm sgm) := by
  induction l generalizing m with
  | nil => simp [clear_list, apply_actions]
  | cons h t ih =>
    have step : apply_actions m (clear_list (h :: t))
        = apply_actions
            (apply_action (apply_action m (Action.furnaceSetSp h 0)) (Action.furnaceSetTm h 0))
            (clear_list t) := rfl
    rw [step]
    rcases ih (apply_action (apply_action m (Action.furnaceSetSp h 0))
        (Action.furnaceSetTm h 0)) with ⟨ihs, iht⟩
    constructor
    · rw [ihs]
      by_cases hm : sgm ∈ t
      · simp [hm]
      · by_cases he : sgm = h <;> simp [hm, he, apply_action]
    · rw [iht]
      by_cases hm : sgm ∈ t
      · simp [hm]
      · by_cases he : sgm = h <;> simp [hm, he, apply_action]

theorem stage_writes_untouched (ws : List Stage) (i0 : ℕ) (m : FurnaceMem) (sgm : ℕ)
    (h : sgm < 2 * i0 + 1 ∨ 2 * i0 + 2 * ws.length < sgm) :
    (apply_actions m (stage_writes i0 ws)).sp sgm = m.sp sgm
    ∧ (apply_actions m (stage_writes i0 ws)).tm sgm = m.tm sgm := by
  induction ws generalizing i0 m with
  | nil => simp [stage_writes, apply_actions]
  | cons w t ih =>
    have hne1 : sgm ≠ i0 * 2 + 1 := by simp at h; omega
    have hne2 : sgm ≠ i0 * 2 + 2 := by simp at h; omega
    have step : apply_actions m (stage_writes i0 (w :: t))
        = apply_actions
            (apply_action (apply_action (apply_action (apply_action m
              (Action.furnaceSetSp (i0 * 2 + 1) w.temperature))
              (Action.furnaceSetSp (i0 * 2 + 2) w.temperature))
              (Action.furnaceSetTm (i0 * 2 + 1) w.ramp_time))
              (Action.furnaceSetTm (i0 * 2 + 2) w.hold_time))
            (stage_writes (i0 + 1) t) := rfl
    rw [step]
    rcases ih (i0 + 1) _ (by simp at h ⊢; omega) with ⟨ihs, iht⟩
    rw [ihs, iht]
    constructor <;> simp [apply_action, hne1, hne2]

theorem stage_writes_hit (ws : List Stage) (i0 j : ℕ) (hj : j < ws.length) (m : FurnaceMem) :
    (apply_actions m (stage_writes i0 ws)).sp ((i0 + j) * 2 + 1) = (ws.get ⟨j, hj⟩).temperature
    ∧ (apply_actions m (stage_writes i0 ws)).sp ((i0 + j) * 2 + 2) = (ws.get ⟨j, hj⟩).temperature
    ∧ (apply_actions m (stage_writes i0 ws)).tm ((i0 + j) * 2 + 1) = (ws.get ⟨j, hj⟩).ramp_time
    ∧ (apply_actions m (stage_writes i0 ws)).tm ((i0 + j) * 2 + 2) = (ws.get ⟨j, hj⟩).hold_time := by
  induction ws generalizing i0 j m with
  | nil => exact absurd hj (by simp)
  | cons w t ih =>
    have step : apply_actions m (stage_writes i0 (w :: t))
        = apply_actions
            (apply_action (apply_action (apply_action (apply_action m
              (Action.furnaceSetSp (i0 * 2 + 1) w.temperature))
              (Action.furnaceSetSp (i0 * 2 + 2) w.temperature))
              (Action.furnaceSetTm (i0 * 2 + 1) w.ramp_time))
              (Action.furnaceSetTm (i0 * 2 + 2) w.hold_time))
            (stage_writes (i0 + 1) t) := rfl
    cases j with
    | zero =>
      rw [step]
      set m4 := apply_action (apply_action (apply_action (apply_action m
        (Action.furnaceSetSp (i0 * 2 + 1) w.temperature))
        (Action.furnaceSetSp (i0 * 2 + 2) w.temperature))
        (Action.furnaceSetTm (i0 * 2 + 1) w.ramp_time))
        (Action.furnaceSetTm (i0 * 2 + 2) w.hold_time) with hm4
      have hu1 := stage_writes_untouched t (i0 + 1) m4 ((i0 + 0) * 2 + 1) (Or.inl (by omega))
      have hu2 := stage_writes_untouched t (i0 + 1) m4 ((i0 + 0) * 2 + 2) (Or.inl (by omega))
      refine ⟨?_, ?_, ?_, ?_⟩
      · rw [hu1.1, hm4]
        simp only [apply_action]
        split_ifs <;> first | rfl | omega
      · rw [hu2.1, hm4]
        simp only [apply_action]
        split_ifs <;> first | rfl | omega
      · rw [hu1.2, hm4]
        simp only [apply_action]
        split_ifs <;> first | rfl | omega
      · rw [hu2.2, hm4]
        simp only [apply_action]
        split_ifs <;> first | rfl | omega
    | succ j' =>
      rw [step]
      have hj' : j' < t.length := by simpa using hj
      have hix : (i0 + (j' + 1)) * 2 + 1 = ((i0 + 1) + j') * 2 + 1 := by ring_nf
      have hix2 : (i0 + (j' + 1)) * 2 + 2 = ((i0 + 1) + j') * 2 + 2 := by ring_nf
      rw [hix, hix2]
      exact ih (i0 + 1) j' hj' _

end MainWindow

/-- C3: starting with at most 8 configured stages writes stage i's
temperature to ramp segment 2i+1 and hold segment 2i+2 (ramp minutes to
2i+1, hold minutes to 2i+2, both segments within 1..16), clears every
segment beyond 2·stage_count up to 16 to zero setpoint and duration, and
ends by issuing run() and opening the MFC valve. -/
theorem C3_start_furnace_programs_segments (stages : List MainWindow.Stage)
    (h8 : stages.length ≤ 8) (m : MainWindow.FurnaceMem) :
    (∀ i (hi : i < stages.length),
      (MainWindow.apply_actions m (MainWindow.start_furnace stages)).sp (2 * i + 1)
          = (stages.get ⟨i, hi⟩).temperature
        ∧ (MainWindow.apply_actions m (MainWindow.start_furnace stages)).sp (2 * i + 2)
          = (stages.get ⟨i, hi⟩).temperature
        ∧ (MainWindow.apply_actions m (MainWindow.start_furnace stages)).tm (2 * i + 1)
          = (stages.get ⟨i, hi⟩).ramp_time
        ∧ (MainWindow.apply_actions m (MainWindow.start_furnace stages)).tm (2 * i + 2)
          = (stages.get ⟨i, hi⟩).hold_time
        ∧ 1 ≤ 2 * i + 1 ∧ 2 * i + 2 ≤ 16)
    ∧ (∀ sgm, 2 * stages.length < sgm → sgm ≤ 16 →
        (MainWindow.apply_actions m (MainWindow.start_furnace stages)).sp sgm = 0
        ∧ (MainWindow.apply_actions m (MainWindow.start_furnace stages)).tm sgm = 0)
    ∧ ∃ pre, MainWindow.start_furnace stages
        = pre ++ [MainWindow.Action.furnaceRun, MainWindow.Action.mfcOpenValve 1] := by
  have hsplit : MainWindow.apply_actions m (MainWindow.start_furnace stages)
      = MainWindow.apply_actions
          (MainWindow.apply_actions
            (MainWindow.apply_actions
              (MainWindow.apply_actions m [MainWindow.Action.furnaceSetStartSetpoint 25])
              (MainWindow.stage_writes 0 stages))
            (MainWindow.clear_list (MainWindow.clear_segments stages.length)))
          [MainWindow.Action.furnaceRun, MainWindow.Action.mfcOpenValve 1] := by
    unfold MainWindow.start_furnace
    rw [MainWindow.apply_actions_append, MainWindow.apply_actions_append,
      MainWindow.apply_actions_append]
  have hstart : MainWindow.apply_actions m [MainWindow.Action.furnaceSetStartSetpoint 25]
      = m := rfl
  rw [hstart] at hsplit
  have htail : ∀ mm : MainWindow.FurnaceMem,
      MainWindow.apply_actions mm
        [MainWindow.Action.furnaceRun, MainWindow.Action.mfcOpenValve 1] = mm :=
    fun mm => rfl
  rw [htail] at hsplit
  have hmem : ∀ sgm, sgm ∈ MainWindow.clear_segments stages.length
      ↔ (2 * stages.length < sgm ∧ sgm ≤ 16) := by
    intro sgm
    unfold MainWindow.clear_segments
    rw [List.mem_range'_1]
    omega
  refine ⟨?_, ?_, ?_⟩
  · intro i hi
    have hcl := MainWindow.apply_clear_list (MainWindow.clear_segments stages.length)
      (MainWindow.apply_actions m (MainWindow.stage_writes 0 stages))
    have hnm1 : (2 * i + 1) ∉ MainWindow.clear_segments stages.length := by
      rw [hmem]
      omega
    have hnm2 : (2 * i + 2) ∉ MainWindow.clear_segments stages.length := by
      rw [hmem]
      omega
    have hhit := MainWindow.stage_writes_hit stages 0 i hi m
    have hfix1 : (0 + i) * 2 + 1 = 2 * i + 1 := by ring
    have hfix2 : (0 + i) * 2 + 2 = 2 * i + 2 := by ring
    rw [hfix1, hfix2] at hhit
    rw [hsplit]
    refine ⟨?_, ?_, ?_, ?_, by omega, by omega⟩
    · rw [(hcl (2 * i + 1)).1, if_neg hnm1]
      exact hhit.1
    · rw [(hcl (2 * i + 2)).1, if_neg hnm2]
      exact hhit.2.1
    · rw [(hcl (2 * i + 1)).2, if_neg hnm1]
      exact hhit.2.2.1
    · rw [(hcl (2 * i + 2)).2, if_neg hnm2]
      exact hhit.2.2.2
  · intro sgm hlo hhimax
    have hcl := MainWindow.apply_clear_list (MainWindow.clear_segments stages.length)
      (MainWindow.apply_actions m (MainWindow.stage_writes 0 stages)) sgm
    have hin : sgm ∈ MainWindow.clear_segments stages.length := by
      rw [hmem]
      exact ⟨hlo, hhimax⟩
    rw [hsplit]
    rw [hcl.1, hcl.2, if_pos hin, if_pos hin]
    exact ⟨rfl, rfl⟩
  · exact ⟨[MainWindow.Action.furnaceSetStartSetpoint 25]
        ++ MainWindow.stage_writes 0 stages
        ++ MainWindow.clear_list (MainWindow.clear_segments stages.length),
      by unfold MainWindow.start_furnace; simp⟩

/-- Witness for C3 with a single stage (200 °C, 10 min ramp, 5 min hold)
starting from the all-zero register file. -/
theorem C3_start_furnace_programs_segments_witness :
    (MainWindow.apply_actions { sp := fun _ => 0, tm := fun _ => 0 }
      (MainWindow.start_furnace
        [{ temperature := 200, ramp_time := 10, hold_time := 5,
           flow_rate := 50, rangeValue := 500, rangeUnit := "SCCM" }])).sp 1 = 200
    ∧ (MainWindow.apply_actions { sp := fun _ => 0, tm := fun _ => 0 }
      (MainWindow.start_furnace
        [{ temperature := 200, ramp_time := 10, hold_time := 5,
           flow_rate := 50, rangeValue := 500, rangeUnit := "SCCM" }])).tm 2 = 5 := by
  have h := C3_start_furnace_programs_segments
    [{ temperature := 200, ramp_time := 10, hold_time := 5,
       flow_rate := 50, rangeValue := 500, rangeUnit := "SCCM" }]
    (by decide) { sp := fun _ => 0, tm := fun _ => 0 }
  exact ⟨(h.1 0 (by decide)).1, (h.1 0 (by decide)).2.2.2.1⟩

/-- C8 counterexample: `set_flow_setpoint` on a valid channel with an
engineering value whose scaled device value (2000000) is far outside
0..1100 does fail, but only after transmitting the `RA 1 R` and `GC 1 R`
read queries — not before any command or query is transmitted, as
claimed. -/
theorem C8_precheck_cex :
    (MKS647B.mks_set_flow_setpoint { rangeCode := 8, corr := 1 } 1 1000000).1
      = Except.error "assert: setpoint"
    ∧ (MKS647B.mks_set_flow_setpoint { rangeCode := 8, corr := 1 } 1 1000000).2
      = [MKS647B.MFCCmd.raRead 1, MKS647B.MFCCmd.gcRead 1] := by
  have h1 : MKS647B.mks_get_range { rangeCode := 8, corr := 1 } 1
      = (Except.ok 8, [MKS647B.MFCCmd.raRead 1]) := rfl
  have h2 : MKS647B.REVERSE_RANGE_DICT 8 = some (500, "SCCM") := rfl
  have h3 : MKS647B.mks_get_gas_correction_factor { rangeCode := 8, corr := 1 } 1
      = (Except.ok 1, [MKS647B.MFCCmd.gcRead 1]) := rfl
  have hx : pyRound ((1000000 : ℚ) / (((500, "SCCM") : ℕ × String).1 : ℚ) / 1 * 1000)
      = 2000000 := by
    norm_num [pyRound]
  unfold MKS647B.mks_set_flow_setpoint
  rw [h1]
  simp only [h2, h3]
  rw [hx]
  norm_num

/-- C8 (amended): channel violations (1–8 for channel operations, 0–8 for
valve operations) and gas-menu violations (0–5) fail before any
transmission; but in `set_flow_setpoint` and `set_gas_setpoint` the
gas-set and scaled-setpoint checks run only after the range and
correction-factor read queries have been transmitted, so those violations
fail before the *setpoint command* is transmitted, not before any
transmission. -/
theorem C8_argument_checks (env : MKS647B.MFCEnv) (ch g gs : ℤ) (v : ℕ)
    (u : String) (sp : ℚ) :
    (¬(1 ≤ ch ∧ ch ≤ 8) →
      ((MKS647B.mks_get_range env ch).2 = []
        ∧ ∃ e, (MKS647B.mks_get_range env ch).1 = Except.error e)
      ∧ ((MKS647B.mks_get_gas_correction_factor env ch).2 = []
        ∧ ∃ e, (MKS647B.mks_get_gas_correction_factor env ch).1 = Except.error e)
      ∧ ((MKS647B.mks_set_range ch v u).2 = []
        ∧ ∃ e, (MKS647B.mks_set_range ch v u).1 = Except.error e)
      ∧ ((MKS647B.mks_set_flow_setpoint env ch sp).2 = []
        ∧ ∃ e, (MKS647B.mks_set_flow_setpoint env ch sp).1 = Except.error e)
      ∧ ((MKS647B.mks_set_gas_setpoint env ch gs sp).2 = []
        ∧ ∃ e, (MKS647B.mks_set_gas_setpoint env ch gs sp).1 = Except.error e))
    ∧ (¬(0 ≤ ch ∧ ch ≤ 8) →
      ((MKS647B.mks_open_valve ch).2 = []
        ∧ ∃ e, (MKS647B.mks_open_valve ch).1 = Except.error e)
      ∧ ((MKS647B.mks_close_valve ch).2 = []
        ∧ ∃ e, (MKS647B.mks_close_valve ch).1 = Except.error e))
    ∧ (¬(0 ≤ g ∧ g ≤ 5) →
      (MKS647B.mks_set_gas_menu g).2 = []
        ∧ ∃ e, (MKS647B.mks_set_gas_menu g).1 = Except.error e)
    ∧ ((1 ≤ ch ∧ ch ≤ 8) → ∀ rg, MKS647B.REVERSE_RANGE_DICT env.rangeCode = some rg →
        (¬(0 ≤ pyRound (sp / (rg.1 : ℚ) / env.corr * 1000)
            ∧ pyRound (sp / (rg.1 : ℚ) / env.corr * 1000) ≤ 1100) →
          (MKS647B.mks_set_flow_setpoint env ch sp).1 = Except.error "assert: setpoint"
          ∧ (MKS647B.mks_set_flow_setpoint env ch sp).2
            = [MKS647B.MFCCmd.raRead ch, MKS647B.MFCCmd.gcRead ch])
        ∧ (¬(1 ≤ gs ∧ gs ≤ 5) →
          (MKS647B.mks_set_gas_setpoint env ch gs sp).1 = Except.error "assert: gas_set"
          ∧ (MKS647B.mks_set_gas_setpoint env ch gs sp).2
            = [MKS647B.MFCCmd.raRead ch, MKS647B.MFCCmd.gcRead ch])) := by
  refine ⟨?_, ?_, ?_, ?_⟩
  · intro hch
    have hr : MKS647B.mks_get_range env ch = (Except.error "assert: channel", []) := by
      unfold MKS647B.mks_get_range
      rw [if_neg hch]
    have hc : MKS647B.mks_get_gas_correction_factor env ch
        = (Except.error "assert: channel", []) := by
      unfold MKS647B.mks_get_gas_correction_factor
      rw [if_neg hch]
    refine ⟨⟨by rw [hr], ⟨_, by rw [hr]⟩⟩, ⟨by rw [hc], ⟨_, by rw [hc]⟩⟩, ?_, ?_, ?_⟩
    · unfold MKS647B.mks_set_range
      rw [if_neg hch]
      exact ⟨rfl, ⟨_, rfl⟩⟩
    · unfold MKS647B.mks_set_flow_setpoint
      rw [hr]
      exact ⟨rfl, ⟨_, rfl⟩⟩
    · unfold MKS647B.mks_set_gas_setpoint
      rw [hr]
      exact ⟨rfl, ⟨_, rfl⟩⟩
  · intro hch
    constructor
    · unfold MKS647B.mks_open_valve
      rw [if_neg hch]
      exact ⟨rfl, ⟨_, rfl⟩⟩
    · unfold MKS647B.mks_close_valve
      rw [if_neg hch]
      exact ⟨rfl, ⟨_, rfl⟩⟩
  · intro hg
    unfold MKS647B.mks_set_gas_menu
    rw [if_neg hg]
    exact ⟨rfl, ⟨_, rfl⟩⟩
  · intro hch rg hrg
    have hr : MKS647B.mks_get_range env ch = (Except.ok env.rangeCode, [MKS647B.MFCCmd.raRead ch]) := by
      unfold MKS647B.mks_get_range
      rw [if_pos hch]
    have hc : MKS647B.mks_get_gas_correction_factor env ch
        = (Except.ok env.corr, [MKS647B.MFCCmd.gcRead ch]) := by
      unfold MKS647B.mks_get_gas_correction_factor
      rw [if_pos hch]
    constructor
    · intro hx
      unfold MKS647B.mks_set_flow_setpoint
      rw [hr]
      simp only [hrg, hc]
      rw [if_pos hch, if_neg hx]
      exact ⟨rfl, rfl⟩
    · intro hgs
      unfold MKS647B.mks_set_gas_setpoint
      rw [hr]
      simp only [hrg, hc]
      rw [if_pos hch, if_neg hgs]
      exact ⟨rfl, rfl⟩

/-- Witness for C8: channel 9 is rejected with nothing transmitted. -/
theorem C8_argument_checks_witness :
    (MKS647B.mks_get_range { rangeCode := 8, corr := 1 } 9).2 = []
    ∧ ∃ e, (MKS647B.mks_get_range { rangeCode := 8, corr := 1 } 9).1
      = Except.error e :=
  ((C8_argument_checks { rangeCode := 8, corr := 1 } 9 0 1 1 "SCCM" 0).1
    (by decide)).1

namespace MainWindow

theorem update_last_cons (a : Stage) (rest : List Stage) (f : Stage → Stage)
    (h : rest ≠ []) :
    update_last (a :: rest) f = a :: update_last rest f := by
  cases rest with
  | nil => exact absurd rfl h
  | cons b t => rfl

theorem update_last_append (l : List Stage) (w : Stage) (f : Stage → Stage) :
    update_last (l ++ [w]) f = l ++ [f w] := by
  induction l with
  | nil => rfl
  | cons a t ih =>
    rw [List.cons_append, update_last_cons a (t ++ [w]) f (by simp), ih,
      List.cons_append]

theorem add_stage_small (ws : List Stage) (h : ws.length < 8) :
    add_stage ws = ws ++ [defaultStage] := by
  unfold add_stage
  rw [if_neg (by omega)]

theorem add_stage_full (ws : List Stage) (h : 8 ≤ ws.length) :
    add_stage ws = ws := by
  unfold add_stage
  rw [if_pos (by omega)]

theorem apply_record_complete (ws : List Stage) (l : List Stage) (w0 : Stage)
    (r : StageRecord) (hc : record_complete r) (hadd : add_stage ws = l ++ [w0]) :
    apply_record ws r = (l ++ [to_stage r], true) := by
  obtain ⟨ht, hrt, hht, hfr, hrg⟩ := hc
  obtain ⟨t, ht⟩ := Option.isSome_iff_exists.mp ht
  obtain ⟨rt, hrt⟩ := Option.isSome_iff_exists.mp hrt
  obtain ⟨hh, hht⟩ := Option.isSome_iff_exists.mp hht
  obtain ⟨fr, hfr⟩ := Option.isSome_iff_exists.mp hfr
  obtain ⟨rg, hrg⟩ := Option.isSome_iff_exists.mp hrg
  unfold apply_record
  rw [hadd]
  simp only [ht, hrt, hht, hfr, hrg, update_last_append]
  unfold to_stage
  rw [ht, hrt, hht, hfr, hrg]
  rfl

theorem apply_record_incomplete (ws : List Stage) (r : StageRecord)
    (h : ¬ record_complete r) (hlen : ws.length < 8) :
    (apply_record ws r).2 = false ∧ ∃ w, (apply_record ws r).1 = ws ++ [w] := by
  have hadd := add_stage_small ws hlen
  unfold apply_record
  rw [hadd]
  rcases ht : r.temperature with _ | t
  · dsimp only
    exact ⟨rfl, ⟨defaultStage, rfl⟩⟩
  · rcases hrt : r.ramp_time with _ | rt
    · dsimp only
      exact ⟨rfl, ⟨_, update_last_append _ _ _⟩⟩
    · rcases hht : r.hold_time with _ | hh
      · dsimp only
        refine ⟨rfl, ?_⟩
        rw [update_last_append, update_last_append]
        exact ⟨_, rfl⟩
      · rcases hrg : r.range with _ | rg
        · dsimp only
          refine ⟨rfl, ?_⟩
          rw [update_last_append, update_last_append, update_last_append]
          exact ⟨_, rfl⟩
        · rcases hfr : r.flow_rate with _ | fr
          · dsimp only
            refine ⟨rfl, ?_⟩
            rw [update_last_append, update_last_append, update_last_append,
              update_last_append]
            exact ⟨_, rfl⟩
          · exfalso
            apply h
            unfold record_complete
            rw [ht, hrt, hht, hrg, hfr]
            simp

theorem apply_records_complete_small (rs : List StageRecord) (ws : List Stage)
    (hlen : ws.length + rs.length ≤ 8) (hc : ∀ r ∈ rs, record_complete r) :
    apply_records ws rs = (ws ++ rs.map to_stage, true) := by
  induction rs generalizing ws with
  | nil => simp [apply_records]
  | cons r t ih =>
    have hr : apply_record ws r = (ws ++ [to_stage r], true) := by
      apply apply_record_complete ws ws defaultStage r (hc r (by simp))
      · exact add_stage_small ws (by simp at hlen; omega)
    unfold apply_records
    rw [hr]
    simp only [if_pos]
    rw [ih (ws ++ [to_stage r]) (by simp at hlen ⊢; omega)
      (fun x hx => hc x (by simp [hx]))]
    simp

theorem apply_records_complete_full (rs : List StageRecord) (ws : List Stage)
    (hlen : ws.length = 8) (hne : rs ≠ []) (hc : ∀ r ∈ rs, record_complete r) :
    apply_records ws rs = (ws.dropLast ++ [to_stage (rs.getLast hne)], true) := by
  induction rs generalizing ws with
  | nil => exact absurd rfl hne
  | cons r t ih =>
    have hadd : add_stage ws = ws.dropLast ++ [ws.getLast (by
        intro hnil
        rw [hnil] at hlen
        simp at hlen)] := by
      rw [add_stage_full ws (by omega)]
      exact (List.dropLast_append_getLast _).symm
    have hr : apply_record ws r = (ws.dropLast ++ [to_stage r], true) :=
      apply_record_complete ws ws.dropLast _ r (hc r (by simp)) hadd
    cases t with
    | nil =>
      unfold apply_records
      rw [hr]
      simp [apply_records]
    | cons r2 t2 =>
      unfold apply_records
      rw [hr]
      simp only [if_pos]
      have hlen2 : (ws.dropLast ++ [to_stage r]).length = 8 := by
        simp [List.length_dropLast, hlen]
      rw [ih (ws.dropLast ++ [to_stage r]) hlen2 (by simp)
        (fun x hx => hc x (List.mem_cons_of_mem r hx))]
      rw [List.dropLast_concat]
      rw [List.getLast_cons (by simp : (r2 :: t2 : List StageRecord) ≠ [])]

theorem apply_records_append_ok (a b : List StageRecord) (ws : List Stage)
    (h : (apply_records ws a).2 = true) :
    apply_records ws (a ++ b) = apply_records (apply_records ws a).1 b := by
  induction a generalizing ws with
  | nil => simp [apply_records]
  | cons r t ih =>
    simp only [apply_records] at h
    simp only [List.cons_append, apply_records]
    by_cases hp : (apply_record ws r).2 = true
    · rw [if_pos hp] at h
      rw [if_pos hp, if_pos hp]
      exact ih _ h
    · rw [if_neg hp] at h
      exact absurd h hp

end MainWindow

/-- C9 counterexample: loading a two-record file whose second record lacks
`hold_time` fails, but the recipe model is left partially applied — the
first record's stage and a partially populated second stage remain. -/
theorem C9_load_partial_cex :
    (MainWindow.load_recipe []
      (some [{ temperature := some 200, ramp_time := some 10, hold_time := some 5,
               flow_rate := some 50, range := some (500, "SCCM") },
             { temperature := some 400, ramp_time := some 20, hold_time := none,
               flow_rate := some 100, range := some (500, "SCCM") }])).2 = false
    ∧ (MainWindow.load_recipe []
      (some [{ temperature := some 200, ramp_time := some 10, hold_time := some 5,
               flow_rate := some 50, range := some (500, "SCCM") },
             { temperature := some 400, ramp_time := some 20, hold_time := none,
               flow_rate := some 100, range := some (500, "SCCM") }])).1
      = [{ temperature := 200, ramp_time := 10, hold_time := 5, flow_rate := 50,
           rangeValue := 500, rangeUnit := "SCCM" },
         { temperature := 400, ramp_time := 20, hold_time := 0, flow_rate := 0,
           rangeValue := 500, rangeUnit := "SCCM" }] := by
  constructor <;> rfl

/-- C9 (amended): a malformed file leaves the model untouched; a file of at
most 8 complete records loads them in order; a record with a missing field
aborts the load with an error but leaves the stages applied before the
failure (plus a partially populated widget) in the model; and for more
than 8 complete records the 8-stage cap holds with every record applied in
order, so the final model is the first 7 records followed by the last
one. -/
theorem C9_load_recipe (stages0 : List MainWindow.Stage) :
    (MainWindow.load_recipe stages0 none = (stages0, false))
    ∧ (∀ rs : List MainWindow.StageRecord, rs.length ≤ 8 →
        (∀ r ∈ rs, MainWindow.record_complete r) →
        MainWindow.load_recipe stages0 (some rs)
          = (rs.map MainWindow.to_stage, true))
    ∧ (∀ (good : List MainWindow.StageRecord) (bad : MainWindow.StageRecord)
        (rest : List MainWindow.StageRecord), good.length ≤ 7 →
        (∀ r ∈ good, MainWindow.record_complete r) →
        ¬ MainWindow.record_complete bad →
        (MainWindow.load_recipe stages0 (some (good ++ bad :: rest))).2 = false
        ∧ ∃ w, (MainWindow.load_recipe stages0 (some (good ++ bad :: rest))).1
            = good.map MainWindow.to_stage ++ [w])
    ∧ (∀ (rs : List MainWindow.StageRecord) (hne : rs ≠ []), 8 < rs.length →
        (∀ r ∈ rs, MainWindow.record_complete r) →
        MainWindow.load_recipe stages0 (some rs)
          = ((rs.take 7).map MainWindow.to_stage
              ++ [MainWindow.to_stage (rs.getLast hne)], true)) := by
  refine ⟨rfl, ?_, ?_, ?_⟩
  · intro rs hlen hc
    unfold MainWindow.load_recipe
    dsimp only
    rw [MainWindow.apply_records_complete_small rs [] (by simpa using hlen) hc]
    simp
  · intro good bad rest hlen hcg hbad
    have hgood := MainWindow.apply_records_complete_small good []
      (by simp; omega) hcg
    have hmaplen : (good.map MainWindow.to_stage).length < 8 := by
      simp
      omega
    obtain ⟨hp2, w, hp1⟩ :=
      MainWindow.apply_record_incomplete (good.map MainWindow.to_stage) bad hbad hmaplen
    unfold MainWindow.load_recipe
    dsimp only
    rw [MainWindow.apply_records_append_ok good (bad :: rest) [] (by rw [hgood]),
      hgood]
    simp only [List.nil_append]
    simp only [MainWindow.apply_records]
    rw [if_neg (by rw [hp2]; simp)]
    exact ⟨hp2, ⟨w, hp1⟩⟩
  · intro rs hne hlen hc
    have hsplit : rs.take 8 ++ rs.drop 8 = rs := List.take_append_drop 8 rs
    have htk : (rs.take 8).length = 8 := by
      rw [List.length_take]
      omega
    have hsm := MainWindow.apply_records_complete_small (rs.take 8) []
      (by simp [htk]) (fun r hr => hc r (List.mem_of_mem_take hr))
    have hdrop_ne : rs.drop 8 ≠ [] := by
      intro h'
      have := congrArg List.length h'
      simp at this
      omega
    have hlen8 : ((rs.take 8).map MainWindow.to_stage).length = 8 := by
      rw [List.length_map, htk]
    have hdl : ((rs.take 8).map MainWindow.to_stage).dropLast
        = (rs.take 7).map MainWindow.to_stage := by
      rw [List.dropLast_eq_take, List.length_map, htk, List.map_take,
        List.take_take]
      norm_num
    have hgl : (rs.drop 8).getLast hdrop_ne = rs.getLast hne := by
      have h1 : (rs.drop 8).getLast? = rs.getLast? := by
        conv_rhs => rw [← hsplit]
        exact (List.getLast?_append_of_ne_nil _ hdrop_ne).symm
      rw [List.getLast?_eq_getLast _ hdrop_ne, List.getLast?_eq_getLast _ hne] at h1
      exact Option.some_injective _ h1
    have hmain : MainWindow.apply_records [] rs
        = ((rs.take 7).map MainWindow.to_stage
            ++ [MainWindow.to_stage (rs.getLast hne)], true) := by
      conv_lhs => rw [← hsplit]
      rw [MainWindow.apply_records_append_ok _ _ _ (by rw [hsm]), hsm]
      simp only [List.nil_append]
      rw [MainWindow.apply_records_complete_full (rs.drop 8) _ hlen8 hdrop_ne
        (fun r hr => hc r (List.mem_of_mem_drop hr))]
      rw [hdl, hgl]
    unfold MainWindow.load_recipe
    dsimp only
    exact hmain

/-- Witness for C9: one complete record loads as the single stage. -/
theorem C9_load_recipe_witness :
    MainWindow.load_recipe []
      (some [{ temperature := some 200, ramp_time := some 10, hold_time := some 5,
               flow_rate := some 50, range := some (500, "SCCM") }])
      = ([{ temperature := 200, ramp_time := 10, hold_time := 5, flow_rate := 50,
            rangeValue := 500, rangeUnit := "SCCM" }], true) :=
  (C9_load_recipe []).2.1
    [{ temperature := some 200, ramp_time := some 10, hold_time := some 5,
       flow_rate := some 50, range := some (500, "SCCM") }]
    (by decide) (by decide)

/-- C10: the commands `MainWindow.__init__` sends to the MFC (after the
driver constructor's range defaults) zero the channel-1 flow setpoint,
select gas menu 0, and open channel valve 1 and the main valve 0 — so from
any prior device state, both gas-line valves are open at application
startup while the controller is idle. -/
theorem C10_init_commands_mfc (st0 : MainWindow.MFCState) :
    (MainWindow.mfc_apply_all st0 MainWindow.mainwindow_init_mfc_actions).valve_open 1 = true
    ∧ (MainWindow.mfc_apply_all st0 MainWindow.mainwindow_init_mfc_actions).valve_open 0 = true
    ∧ (MainWindow.mfc_apply_all st0 MainWindow.mainwindow_init_mfc_actions).flow_setpoint 1 = 0
    ∧ (MainWindow.mfc_apply_all st0 MainWindow.mainwindow_init_mfc_actions).gas_menu = 0
    ∧ MainWindow.initial_ctrl_state.heating_in_progress = false
    ∧ MainWindow.initial_ctrl_state.post_anneal_flow = false :=
  ⟨rfl, rfl, rfl, rfl, rfl, rfl⟩
